import Mathlib

/-!
# UnrealGenAISupport: the editor's TCP server, its modules, and the specified protocol

Shallow embedding of

* `Source/GenerativeAIEditor/Public/TCPServer.h` and
  `Source/GenerativeAIEditor/Private/TCPServer.cpp` (class `FTCPServer`),
* `Source/GenerativeAIEditor/GenerativeAIEditor.h` and
  `Source/GenerativeAIEditor/Private/GenerativeAIEditor.cpp` (the editor module),
* `Source/PythonSocketUI/Public/PythonSocketUI.h` and
  `Source/PythonSocketUI/Private/PythonSocketUI.cpp` (the Python socket module),

and a model of the parts the specification describes but the source does not contain:
the framing codec, the command dispatcher, the handler registry and connection
admission.  Every definition of that model says so in its first words.

Conventions for the source:

* A C++ object is a Lean structure holding its data members.
* A non-`const` member function is a function from the object to an `Outcome`:
  the returned value, the object afterwards, and the lines handed to `UE_LOG`.
* A `const` member function is a plain function of the object.
* `int32` is an integer in the 32-bit two's complement range.  No arithmetic is
  performed on the fields, so no wrap-around appears below.
-/

namespace GenAI

/-! ## Engine types used by the source -/

/-- The engine's 32-bit signed integer type. -/
def int32 : Type := { v : Int // -2147483648 ≤ v ∧ v ≤ 2147483647 }

instance : DecidableEq int32 := by unfold int32; infer_instance

/-- The integer value of an `int32`. -/
def int32.toInt (x : int32) : Int := x.val

/-- Log verbosity levels that `UE_LOG` is called with in `TCPServer.cpp`. -/
inductive ELogVerbosity where
  | Display
  | Warning
  | Error
  deriving DecidableEq, Repr

/-- One `UE_LOG(LogGenAI, verbosity, text)` call, with its format arguments filled in. -/
structure LogLine where
  Verbosity : ELogVerbosity
  Text : String
  deriving DecidableEq, Repr

/-! ## `TCPServer.h` -/

/-- The struct `FTCPServerConfig`, with its default member initialisers. -/
structure FTCPServerConfig where
  Port : int32 := ⟨8080, by decide⟩
  MaxConnections : int32 := ⟨10, by decide⟩
  deriving DecidableEq

/-- The value `FTCPServerConfig()`: every member takes its default initialiser. -/
def FTCPServerConfig.Default : FTCPServerConfig := {}

/-- The data members of class `FTCPServer`. -/
structure FTCPServer where
  Config : FTCPServerConfig
  bIsRunning : Bool
  deriving DecidableEq

/-- What a non-`const` member function of `FTCPServer` does: the value it returns, the
object afterwards, and the log lines it emits, in order. -/
structure Outcome (α : Type) where
  ret : α
  self : FTCPServer
  log : List LogLine

/-! ## `TCPServer.cpp` -/

/-- The constructor `FTCPServer::FTCPServer(const FTCPServerConfig& InConfig)`:
`Config(InConfig), bIsRunning(false)`. -/
def FTCPServer.new (InConfig : FTCPServerConfig) : FTCPServer :=
  { Config := InConfig, bIsRunning := false }

/-- The constructor called without an argument: `InConfig = FTCPServerConfig()`. -/
def FTCPServer.newDefault : FTCPServer :=
  FTCPServer.new FTCPServerConfig.Default

/-- The member function `bool FTCPServer::Start()`. -/
def FTCPServer.Start (s : FTCPServer) : Outcome Bool :=
  if s.bIsRunning then
    { ret := true
      self := s
      log := [⟨.Warning, "TCP Server is already running"⟩] }
  else
    { ret := true
      self := { s with bIsRunning := true }
      log := [⟨.Display, "Starting TCP Server on port " ++ toString s.Config.Port.toInt⟩,
              ⟨.Display, "TCP Server started successfully"⟩] }

/-- The member function `void FTCPServer::Stop()`. -/
def FTCPServer.Stop (s : FTCPServer) : Outcome Unit :=
  if !s.bIsRunning then
    { ret := ()
      self := s
      log := [] }
  else
    { ret := ()
      self := { s with bIsRunning := false }
      log := [⟨.Display, "Stopping TCP Server"⟩, ⟨.Display, "TCP Server stopped"⟩] }

/-- The member function `bool FTCPServer::IsRunning() const`. -/
def FTCPServer.IsRunning (s : FTCPServer) : Bool :=
  s.bIsRunning

/-- The inline member function `const FTCPServerConfig& FTCPServer::GetConfig() const`. -/
def FTCPServer.GetConfig (s : FTCPServer) : FTCPServerConfig :=
  s.Config

/-! ## Call sequences on one server object -/

/-- The public member functions a client can call on a constructed `FTCPServer`. -/
inductive Call where
  | Start
  | Stop
  | IsRunning
  | GetConfig
  deriving DecidableEq, Repr

/-- A value returned by one of the public member functions. -/
inductive Ret where
  | void
  | bool (b : Bool)
  | config (c : FTCPServerConfig)
  deriving DecidableEq

/-- One call on the object: the returned value and the object afterwards.  The two
`const` member functions hand the object back as they received it. -/
def FTCPServer.call (s : FTCPServer) : Call → Ret × FTCPServer
  | .Start => (Ret.bool s.Start.ret, s.Start.self)
  | .Stop => (Ret.void, s.Stop.self)
  | .IsRunning => (Ret.bool s.IsRunning, s)
  | .GetConfig => (Ret.config s.GetConfig, s)

/-- The object after a sequence of calls, made from left to right. -/
def FTCPServer.run (s : FTCPServer) : List Call → FTCPServer
  | [] => s
  | c :: cs => (s.call c).2.run cs

/-- The values returned by a sequence of calls, in call order. -/
def FTCPServer.trace (s : FTCPServer) : List Call → List Ret
  | [] => []
  | c :: cs => (s.call c).1 :: (s.call c).2.trace cs

/-! ## Concrete inputs -/

/-- A configuration with `MaxConnections = 0` and the default port. -/
def configNoConnections : FTCPServerConfig :=
  { Port := ⟨8080, by decide⟩, MaxConnections := ⟨0, by decide⟩ }

/-- A configuration with `Port = 70000` and the default connection limit. -/
def configPort70000 : FTCPServerConfig :=
  { Port := ⟨70000, by decide⟩, MaxConnections := ⟨10, by decide⟩ }

/-- A configuration that differs from the default in both members. -/
def configCustom : FTCPServerConfig :=
  { Port := ⟨9000, by decide⟩, MaxConnections := ⟨3, by decide⟩ }

/-- A server on which `Start()` has been called once after construction. -/
def runningServer : FTCPServer :=
  (FTCPServer.new configCustom).Start.self

/-! ## Framing codec (specification §3 and §4.3)

`TCPServer.cpp` contains no wire code: `Start()` and `Stop()` only flip `bIsRunning`.
The codec below is therefore written from the specification text. -/

/-- Modelled from the spec: a byte of the stream (§3 "payload: bytes").  The source has no
byte-stream type; a byte is a number below 256. -/
abbrev Byte : Type := Fin 256

/-- Modelled from the spec: the width in bytes of the "fixed-width" length field of §4.3,
missing from the source.  §3 gives the length as `uint32`, which is 4 bytes. -/
def Framing.LengthFieldWidth : Nat := 4

/-- Modelled from the spec: the big-endian `uint32` length field that `Encode` prepends
(§4.3), missing from the source.  The most significant byte comes first and the value
is taken modulo `2^32`, as a `uint32` holds it. -/
def Framing.EncodeLength (n : Nat) : List Byte :=
  [⟨n / 16777216 % 256, Nat.mod_lt _ (by decide)⟩,
   ⟨n / 65536 % 256, Nat.mod_lt _ (by decide)⟩,
   ⟨n / 256 % 256, Nat.mod_lt _ (by decide)⟩,
   ⟨n % 256, Nat.mod_lt _ (by decide)⟩]

/-- Modelled from the spec: the value of a big-endian length field (§4.3), missing from
the source: each byte read shifts the value so far by 8 bits. -/
def Framing.DecodeLength (field : List Byte) : Nat :=
  field.foldl (fun acc b => acc * 256 + b.val) 0

/-- Modelled from the spec: `Encode(payload: bytes) -> bytes` of §4.3, missing from the
source: "prepends a fixed-width big-endian length field equal to `len(payload)`". -/
def Framing.Encode (payload : List Byte) : List Byte :=
  Framing.EncodeLength payload.length ++ payload

/-- Modelled from the spec: `TryDecode(buffer) -> Option<(payload, bytesConsumed)>` of
§4.3, missing from the source: "returns nothing if fewer than the length-field width
bytes are buffered, or if the declared payload length exceeds what's buffered yet;
otherwise returns the payload and total bytes consumed". -/
def Framing.TryDecode (buffer : List Byte) : Option (List Byte × Nat) :=
  if buffer.length < Framing.LengthFieldWidth then
    none
  else
    let declared := Framing.DecodeLength (buffer.take Framing.LengthFieldWidth)
    if buffer.length - Framing.LengthFieldWidth < declared then
      none
    else
      some ((buffer.drop Framing.LengthFieldWidth).take declared,
            Framing.LengthFieldWidth + declared)

/-- Modelled from the spec: the error kinds of §7, missing from the source, where failures
are only logged. -/
inductive ErrorKind where
  | AlreadyRunning
  | BindError
  | AcceptError
  | FramingError
  | MessageTooLarge
  | UnknownCommand
  | HandlerFailure
  | ShutdownTimeout
  deriving DecidableEq, Repr

/-- Modelled from the spec: the configured "maximum size bound" on a message (§4.2),
missing from the source.  It bounds a `uint32` length (§3), so it is a `uint32` itself. -/
structure Framing.Limits where
  MaxMessageSize : Nat
  fits : MaxMessageSize < 4294967296

/-- Modelled from the spec: what one pass of the decode loop leaves behind: the messages
decoded, in order, the bytes still buffered, and the error that closed the connection,
if any. -/
structure Framing.LoopResult where
  Messages : List (List Byte)
  Rest : List Byte
  Error : Option ErrorKind
  deriving DecidableEq

/-- Modelled from the spec: the accumulating decode loop of §4.2 and §4.3, missing from
the source: "the caller loops `TryDecode` until it returns nothing", removing "exactly
that many bytes from the front of the buffer" after each message; "a message exceeding a
maximum size bound fails with `MessageTooLarge` and closes the connection".  With a
fixed-width binary length field no prefix is malformed, so `FramingError` does not
arise.  `fuel` bounds the number of rounds. -/
def Framing.DecodeLoopFuel (lim : Framing.Limits) : Nat → List Byte → Framing.LoopResult
  | 0, buffer => { Messages := [], Rest := buffer, Error := none }
  | fuel + 1, buffer =>
    if Framing.LengthFieldWidth ≤ buffer.length ∧
        lim.MaxMessageSize < Framing.DecodeLength (buffer.take Framing.LengthFieldWidth) then
      { Messages := [], Rest := buffer, Error := some ErrorKind.MessageTooLarge }
    else
      match Framing.TryDecode buffer with
      | none => { Messages := [], Rest := buffer, Error := none }
      | some (payload, consumed) =>
        let rest := Framing.DecodeLoopFuel lim fuel (buffer.drop consumed)
        { rest with Messages := payload :: rest.Messages }

/-- Modelled from the spec: the decode loop run to its end.  Every decoded message
removes at least the 4 bytes of its length field, so `buffer.length` rounds are never
used up before the loop stops by itself. -/
def Framing.DecodeLoop (lim : Framing.Limits) (buffer : List Byte) : Framing.LoopResult :=
  Framing.DecodeLoopFuel lim buffer.length buffer

/-- Modelled from the spec: the receive side of a Connection (§3, §4.2), missing from the
source: the accumulating buffer, the messages decoded from it so far, and the error
that closed the connection, if any. -/
structure Framing.Receiver where
  Buffer : List Byte
  Decoded : List (List Byte)
  Closed : Option ErrorKind
  deriving DecidableEq

/-- Modelled from the spec: a Connection with nothing received yet. -/
def Framing.Receiver.empty : Framing.Receiver :=
  { Buffer := [], Decoded := [], Closed := none }

/-- Modelled from the spec: one socket read of the Connection loop (§4.2), missing from
the source: "read raw bytes into an accumulating buffer; feed to the Framing Codec",
which decodes every complete message and keeps the incomplete rest buffered.  A closed
connection reads nothing more. -/
def Framing.Receiver.Feed (lim : Framing.Limits) (r : Framing.Receiver)
    (chunk : List Byte) : Framing.Receiver :=
  match r.Closed with
  | some _ => r
  | none =>
    let out := Framing.DecodeLoop lim (r.Buffer ++ chunk)
    { Buffer := out.Rest, Decoded := r.Decoded ++ out.Messages, Closed := out.Error }

/-- Modelled from the spec: the reads of a Connection, one chunk after the other. -/
def Framing.Receiver.FeedAll (lim : Framing.Limits) (r : Framing.Receiver) :
    List (List Byte) → Framing.Receiver
  | [] => r
  | chunk :: chunks => (Framing.Receiver.Feed lim r chunk).FeedAll lim chunks

/-- A message size bound of 1024 bytes. -/
def limits1024 : Framing.Limits :=
  { MaxMessageSize := 1024, fits := by decide }

/-- The three payload bytes `1, 2, 3`. -/
def payload123 : List Byte := [1, 2, 3]

/-! ## Command dispatcher, handler registry and Connection (specification §3, §4.2, §4.4)

`FTCPServer` declares neither a handler registry nor a dispatcher; only the comment on
`FGenerativeAIEditorModule::GetServer` speaks of registering handlers.  This part is
written from the specification text. -/

/-- Modelled from the spec: what a handler returns (§4.4), missing from the source: "a
handler returns either a success payload or a domain error"; `Uncaught` stands for the
"uncaught handler failures" the Dispatcher has to translate. -/
inductive HandlerResult where
  | Success (payload : List Byte)
  | DomainError (detail : List Byte)
  | Uncaught
  deriving DecidableEq

/-- Modelled from the spec: a command handler (§3), missing from the source: it is
invoked "with the remaining payload as argument". -/
abbrev Handler : Type := List Byte → HandlerResult

/-- Modelled from the spec: the HandlerRegistry of §3, missing from the source: a "mapping
from command name (string, unique) to handler function", kept as a list of entries. -/
abbrev HandlerRegistry : Type := List (String × Handler)

/-- Modelled from the spec: looking a command name up in the HandlerRegistry (§4.4),
missing from the source.  The first entry with that name answers. -/
def HandlerRegistry.Lookup : HandlerRegistry → String → Option Handler
  | [], _ => none
  | (entry, handler) :: rest, name =>
    if entry = name then some handler else HandlerRegistry.Lookup rest name

/-- Modelled from the spec: a response of the Dispatcher (§4.4, §7), missing from the
source: the handler's success payload, or a structured error. -/
inductive Response where
  | Success (payload : List Byte)
  | Error (kind : ErrorKind)
  deriving DecidableEq

/-- Modelled from the spec: the response for what a handler returned (§4.4, §7), missing
from the source: the success payload as it is; a `HandlerFailure` error both when the
handler "raised/returned an error" and when it failed uncaught, "rather than letting
them crash the Connection's loop". -/
def Response.OfHandler : HandlerResult → Response
  | HandlerResult.Success payload => Response.Success payload
  | HandlerResult.DomainError _ => Response.Error ErrorKind.HandlerFailure
  | HandlerResult.Uncaught => Response.Error ErrorKind.HandlerFailure

/-- Modelled from the spec: the payload encoding, which §6 and §9 leave open as "a
per-deployment contract": how the command name and its argument are read from a request
payload, and how a response is written as a payload. -/
structure PayloadFormat where
  ParseCommand : List Byte → String × List Byte
  WriteResponse : Response → List Byte

/-- Modelled from the spec: `Dispatch(request) -> response` of §4.4, missing from the
source: "parses the command name from payload, looks it up in the HandlerRegistry; fails
with `UnknownCommand` if absent.  Invokes the handler with the remaining payload as
argument"; handler errors and uncaught failures become a `HandlerFailure` error
response (§7). -/
def Dispatch (format : PayloadFormat) (registry : HandlerRegistry)
    (request : List Byte) : Response :=
  match registry.Lookup (format.ParseCommand request).1 with
  | none => Response.Error ErrorKind.UnknownCommand
  | some handler => Response.OfHandler (handler (format.ParseCommand request).2)

/-- Modelled from the spec: the states of a Connection (§3), missing from the source. -/
inductive ConnectionState where
  | Reading
  | Dispatching
  | Writing
  | Closing
  deriving DecidableEq, Repr

/-- Modelled from the spec: a Connection (§3, §4.2), missing from the source: its state,
its accumulating receive buffer, and the bytes it has written to its socket so far. -/
structure Connection where
  State : ConnectionState
  Buffer : List Byte
  Written : List Byte
  deriving DecidableEq

/-- Modelled from the spec: a Connection as created on accept: reading, nothing buffered,
nothing written. -/
def Connection.new : Connection :=
  { State := ConnectionState.Reading, Buffer := [], Written := [] }

/-- Modelled from the spec: one round of the Connection loop (§4.2), missing from the
source, for the bytes one socket read returned.  "On read of zero bytes (peer closed)
... closes the connection."  Otherwise the bytes join the accumulating buffer, and for
each fully decoded message, in arrival order, the Dispatcher's response is encoded by
the Framing Codec and written out before the next message; the connection returns to
`Reading` unless the decode loop closed it with `MessageTooLarge`.  A connection that
is `Closing` reads nothing. -/
def Connection.OnRead (format : PayloadFormat) (lim : Framing.Limits)
    (registry : HandlerRegistry) (conn : Connection) (received : List Byte) : Connection :=
  if conn.State = ConnectionState.Closing then
    conn
  else if received = [] then
    { conn with State := ConnectionState.Closing }
  else
    let out := Framing.DecodeLoop lim (conn.Buffer ++ received)
    let replies := out.Messages.map
      (fun request => Framing.Encode (format.WriteResponse (Dispatch format registry request)))
    { State := match out.Error with
        | none => ConnectionState.Reading
        | some _ => ConnectionState.Closing
      Buffer := out.Rest
      Written := conn.Written ++ replies.flatten }

/-! ## Listener: handler registration and connection admission (specification §3, §4.1) -/

/-- Modelled from the spec: the ServerState of §3, missing from the source, which keeps
one boolean. -/
inductive ServerState where
  | Stopped
  | Starting
  | Running
  | Stopping
  deriving DecidableEq, Repr

/-- Modelled from the spec: the Listener of §2 and §4.1 as far as admission and
registration go, missing from the source: it "owns shared configuration and the handler
registry" and the live-connection set, here the socket handles of the active
connections in the order they were admitted.  The configuration is the source's
`FTCPServerConfig`, with its two unvalidated `int32` members. -/
structure Listener where
  Config : FTCPServerConfig
  State : ServerState
  Live : List Nat
  Handlers : HandlerRegistry

/-- Modelled from the spec: `RegisterHandler(name, handler)` of §4.1, missing from the
source: "adds/overwrites a command handler; rejects empty names".  The result tells
whether the registration was accepted.  An accepted registration drops every older
entry of that name, so names stay unique. -/
def Listener.RegisterHandler (l : Listener) (name : String) (handler : Handler) :
    Bool × Listener :=
  if name = "" then
    (false, l)
  else
    (true, { l with Handlers := (name, handler) :: l.Handlers.filter (fun e => e.1 ≠ name) })

/-- Modelled from the spec: what the accept loop did with an accepted socket (§4.1). -/
inductive Admission where
  | Admitted
  | ClosedImmediately
  deriving DecidableEq, Repr

/-- Modelled from the spec: one round of the accept loop of §4.1 after a successful
accept, missing from the source: "if the number of active connections ≥
`maxConnections`, immediately closes the new socket (policy: reject-on-overflow, no
queueing) ...; otherwise wraps the socket in a new Connection, registers it in the live
set".  The limit compared with is `MaxConnections` of the source's `FTCPServerConfig`,
a signed number. -/
def Listener.OnAccept (l : Listener) (socket : Nat) : Admission × Listener :=
  if l.Config.MaxConnections.toInt ≤ (l.Live.length : Int) then
    (Admission.ClosedImmediately, l)
  else
    (Admission.Admitted, { l with Live := l.Live ++ [socket] })

/-- Modelled from the spec: a Connection that closes "removes itself from the Listener's
live set" (§4.2). -/
def Listener.OnConnectionClosed (l : Listener) (socket : Nat) : Listener :=
  { l with Live := l.Live.erase socket }

/-- Modelled from the spec: what happens to the live set while the server runs: a client
is accepted, or an active connection closes. -/
inductive ListenerEvent where
  | Accept (socket : Nat)
  | ConnectionClosed (socket : Nat)
  deriving DecidableEq, Repr

/-- Modelled from the spec: the Listener after one event. -/
def Listener.Step (l : Listener) : ListenerEvent → Listener
  | ListenerEvent.Accept socket => (l.OnAccept socket).2
  | ListenerEvent.ConnectionClosed socket => l.OnConnectionClosed socket

/-- Modelled from the spec: the Listener after a sequence of events, in order. -/
def Listener.Run (l : Listener) : List ListenerEvent → Listener
  | [] => l
  | e :: es => (l.Step e).Run es

/-- A handler that returns its argument unchanged. -/
def echoHandler : Handler := fun argument => HandlerResult.Success argument

/-- A payload format for the examples: the first byte of a request selects the command,
`1` for "ECHO" and anything else for "PING", the other bytes are the argument; a
success response is written as `0` followed by its payload, an error as the single
byte `1`. -/
def exampleFormat : PayloadFormat :=
  { ParseCommand := fun request =>
      match request with
      | [] => ("", [])
      | b :: argument => (if b = 1 then "ECHO" else "PING", argument)
    WriteResponse := fun response =>
      match response with
      | Response.Success payload => 0 :: payload
      | Response.Error _ => [1] }

/-- A Listener that is running with room for two connections, none active, and no
handler registered. -/
def listenerTwo : Listener :=
  { Config := { Port := ⟨8080, by decide⟩, MaxConnections := ⟨2, by decide⟩ }
    State := ServerState.Running
    Live := []
    Handlers := [] }

/-- A message size bound of 2 bytes. -/
def limits2 : Framing.Limits :=
  { MaxMessageSize := 2, fits := by decide }

/-- A handler that always fails uncaught. -/
def failingHandler : Handler := fun _ => HandlerResult.Uncaught

/-! ## `GenerativeAIEditor.h` and `GenerativeAIEditor.cpp`: the editor module

A member function of the module is a function from the module object to a
`ModuleOutcome`: the object afterwards and, in order, what the call did to the world
outside the object (log lines and calls into the editor's UI).  Whether
`UToolMenus::Get()` returns an object is an input of the call. -/

/-- The destructor `FTCPServer::~FTCPServer()`: it calls `Stop()`.  The result is what
that call logs; the object is gone afterwards. -/
def FTCPServer.Destroy (s : FTCPServer) : List LogLine :=
  s.Stop.log

/-- An `SWindow` of the editor's UI framework.  The modules only hold a pointer to one. -/
structure SWindow where
  Handle : Nat
  deriving DecidableEq, Repr

/-- What a member function of `FGenerativeAIEditorModule` does outside the object. -/
inductive EditorEvent where
  /-- A call of `UE_LOG(LogGenAI, ...)`, directly or through a `GENAI_LOG_*` macro. -/
  | Log (line : LogLine)
  /-- The call `ToolMenus->RefreshAllWidgets()`. -/
  | RefreshAllWidgets
  /-- The call `FGenAIPluginStyle::Shutdown()`. -/
  | StyleShutdown
  /-- The call `ControlPanelWindow->RequestDestroyWindow()`. -/
  | RequestDestroyWindow (window : SWindow)
  /-- The call `FCoreDelegates::OnPostEngineInit.RemoveAll(this)`. -/
  | RemoveAllDelegates
  deriving DecidableEq

/-- The data members of class `FGenerativeAIEditorModule`: `TUniquePtr<FTCPServer> Server`
and `TSharedPtr<SWindow> ControlPanelWindow`, `none` standing for a null pointer. -/
structure FGenerativeAIEditorModule where
  Server : Option FTCPServer
  ControlPanelWindow : Option SWindow
  deriving DecidableEq

/-- What a `void` member function of `FGenerativeAIEditorModule` does. -/
structure ModuleOutcome where
  self : FGenerativeAIEditorModule
  events : List EditorEvent

/-- The inline member function `FTCPServer* GetServer() const`: `Server.Get()`, `none`
standing for `nullptr`. -/
def FGenerativeAIEditorModule.GetServer (m : FGenerativeAIEditorModule) : Option FTCPServer :=
  m.Server

/-- The member function `bool IsServerRunning() const`: `Server && Server->IsRunning()`. -/
def FGenerativeAIEditorModule.IsServerRunning (m : FGenerativeAIEditorModule) : Bool :=
  match m.Server with
  | some server => server.IsRunning
  | none => false

/-- The text `(Server && Server->IsRunning()) ? TEXT("Running") : TEXT("Not Running")` that
`ToggleServer` logs. -/
def FGenerativeAIEditorModule.ServerStateText (m : FGenerativeAIEditorModule) : String :=
  if m.IsServerRunning then "Running" else "Not Running"

/-- The refresh of the toolbar at the end of `StartServer` and `StopServer`:
`if (UToolMenus* ToolMenus = UToolMenus::Get()) ToolMenus->RefreshAllWidgets();`. -/
def RefreshToolbar (ToolMenus : Bool) : List EditorEvent :=
  if ToolMenus then [EditorEvent.RefreshAllWidgets] else []

/-- The member function `void FGenerativeAIEditorModule::StartServer()`.  Assigning the
result of `MakeUnique` to `Server` destroys the server held before, if any. -/
def FGenerativeAIEditorModule.StartServer (ToolMenus : Bool) (m : FGenerativeAIEditorModule) :
    ModuleOutcome :=
  if m.IsServerRunning then
    { self := m
      events := [EditorEvent.Log
        ⟨.Warning, "Server is already running, ignoring start request"⟩] }
  else
    let Config : FTCPServerConfig := { FTCPServerConfig.Default with Port := ⟨8080, by decide⟩ }
    let created := FTCPServer.new Config
    let destroyed : List LogLine :=
      match m.Server with
      | some old => old.Destroy
      | none => []
    let started := created.Start
    { self := { m with Server := some started.self }
      events :=
        [EditorEvent.Log ⟨.Display, "Creating new server instance"⟩]
        ++ destroyed.map EditorEvent.Log
        ++ started.log.map EditorEvent.Log
        ++ (if started.ret then
              RefreshToolbar ToolMenus
            else
              [EditorEvent.Log ⟨.Error, "Failed to start GenerativeAI Server"⟩]) }

/-- The member function `void FGenerativeAIEditorModule::StopServer()`.  `Server.Reset()`
destroys the server that `Stop()` was just called on. -/
def FGenerativeAIEditorModule.StopServer (ToolMenus : Bool) (m : FGenerativeAIEditorModule) :
    ModuleOutcome :=
  match m.Server with
  | some server =>
    let stopped := server.Stop
    { self := { m with Server := none }
      events :=
        stopped.log.map EditorEvent.Log
        ++ stopped.self.Destroy.map EditorEvent.Log
        ++ [EditorEvent.Log ⟨.Display, "GenerativeAI Server stopped"⟩]
        ++ RefreshToolbar ToolMenus }
  | none => { self := m, events := [] }

/-- The member function `void FGenerativeAIEditorModule::ToggleServer()`. -/
def FGenerativeAIEditorModule.ToggleServer (ToolMenus : Bool) (m : FGenerativeAIEditorModule) :
    ModuleOutcome :=
  let called := EditorEvent.Log
    ⟨.Warning, "ToggleServer called - Server state: " ++ m.ServerStateText⟩
  let branch : ModuleOutcome :=
    if m.IsServerRunning then
      let stopped := m.StopServer ToolMenus
      { stopped with
        events := EditorEvent.Log ⟨.Warning, "Stopping server..."⟩ :: stopped.events }
    else
      let started := m.StartServer ToolMenus
      { started with
        events := EditorEvent.Log ⟨.Warning, "Starting server..."⟩ :: started.events }
  { self := branch.self
    events := called :: branch.events ++ [EditorEvent.Log
      ⟨.Warning, "ToggleServer completed - Server state: " ++ branch.self.ServerStateText⟩] }

/-- The member function `void FGenerativeAIEditorModule::CloseControlPanel()`. -/
def FGenerativeAIEditorModule.CloseControlPanel (m : FGenerativeAIEditorModule) :
    ModuleOutcome :=
  match m.ControlPanelWindow with
  | some window =>
    { self := { m with ControlPanelWindow := none }
      events := [EditorEvent.RequestDestroyWindow window,
        EditorEvent.Log ⟨.Display, "Generative AI Control Panel closed"⟩] }
  | none => { self := m, events := [] }

/-- The member function `void FGenerativeAIEditorModule::ShutdownModule()`. -/
def FGenerativeAIEditorModule.ShutdownModule (ToolMenus : Bool)
    (m : FGenerativeAIEditorModule) : ModuleOutcome :=
  let stopped : ModuleOutcome :=
    match m.Server with
    | some _ => m.StopServer ToolMenus
    | none => { self := m, events := [] }
  let closed := stopped.self.CloseControlPanel
  { self := closed.self
    events := EditorEvent.StyleShutdown :: stopped.events ++ closed.events
      ++ [EditorEvent.RemoveAllDelegates] }

/-- The member functions of the module that start or stop the server, as the editor's UI
and the module manager call them, each with the answer `UToolMenus::Get()` gives
during that call. -/
inductive ModuleCall where
  | StartServer (ToolMenus : Bool)
  | StopServer (ToolMenus : Bool)
  | ToggleServer (ToolMenus : Bool)
  | ShutdownModule (ToolMenus : Bool)
  deriving DecidableEq, Repr

/-- One call on the module. -/
def FGenerativeAIEditorModule.call (m : FGenerativeAIEditorModule) : ModuleCall → ModuleOutcome
  | .StartServer ToolMenus => m.StartServer ToolMenus
  | .StopServer ToolMenus => m.StopServer ToolMenus
  | .ToggleServer ToolMenus => m.ToggleServer ToolMenus
  | .ShutdownModule ToolMenus => m.ShutdownModule ToolMenus

/-- The module after a sequence of calls, made from left to right. -/
def FGenerativeAIEditorModule.run (m : FGenerativeAIEditorModule) :
    List ModuleCall → FGenerativeAIEditorModule
  | [] => m
  | c :: cs => (m.call c).self.run cs

/-- A module as it is before any server was started: no server; its window pointer is
the one given. -/
def FGenerativeAIEditorModule.withoutServer (window : Option SWindow) :
    FGenerativeAIEditorModule :=
  { Server := none, ControlPanelWindow := window }

/-- A module that holds a server which is not running, and an open control panel. -/
def moduleWithStoppedServer : FGenerativeAIEditorModule :=
  { Server := some (FTCPServer.new configCustom), ControlPanelWindow := some ⟨1⟩ }

/-- A module that holds `runningServer` and no control panel. -/
def moduleWithRunningServer : FGenerativeAIEditorModule :=
  { Server := some runningServer, ControlPanelWindow := none }

/-- The state invariant of the module: it holds no server, or a server that is running
and configured with port 8080. -/
def FGenerativeAIEditorModule.NoServerOrRunning (m : FGenerativeAIEditorModule) : Bool :=
  match m.Server with
  | none => true
  | some server => server.IsRunning && decide (server.GetConfig.Port.toInt = 8080)

/-! ## `PythonSocketUI.h` and `PythonSocketUI.cpp`: the Python socket module

An `FString` is a Lean `String`.  What the module asks of the engine during one call is
gathered in a `PythonEnv`. -/

/-- What one call of a member function of `FPythonSocketUIModule` gets from the engine.

* `PythonPlugin` is `IPythonScriptPlugin::Get()`, `none` standing for a null pointer.
  The plugin is given by its `ExecPythonCommandEx`: from the `Command` of the
  `FPythonCommandEx` to the value returned and the `CommandResult` left in it.
* `Contains` is `FString::Contains` with its default arguments: `Contains text sub` is
  `text.Contains(sub)`.
* `ToolMenus` tells whether `UToolMenus::Get()` returns an object.
* `PluginContentPath` is `FPythonSocketConstants::PluginContentPath`. -/
structure PythonEnv where
  PythonPlugin : Option (String → Bool × String)
  Contains : String → String → Bool
  ToolMenus : Bool
  PluginContentPath : String

/-- What a member function of `FPythonSocketUIModule` does outside the object. -/
inductive PythonSocketEvent where
  /-- A call of `UE_LOG(LogPythonSocket, ...)` through a `PYSOCKET_LOG_*` macro. -/
  | Log (line : LogLine)
  /-- The call `ToolMenus->RefreshAllWidgets()`. -/
  | RefreshAllWidgets
  /-- The call `FMessageDialog::Open(EAppMsgType::Ok, Message, Title)`. -/
  | MessageDialog (Message Title : String)
  deriving DecidableEq

/-- The data members of class `FPythonSocketUIModule`. -/
structure FPythonSocketUIModule where
  ControlPanelWindow : Option SWindow
  bIsSocketServerRunning : Bool
  deriving DecidableEq

/-- What a `void` member function of `FPythonSocketUIModule` does. -/
structure PythonSocketOutcome where
  self : FPythonSocketUIModule
  events : List PythonSocketEvent

/-- The inline member function `bool IsSocketServerRunning() const`. -/
def FPythonSocketUIModule.IsSocketServerRunning (m : FPythonSocketUIModule) : Bool :=
  m.bIsSocketServerRunning

/-- The member function `bool RunPythonCommand(const FString& Command, FString& Result)`:
the value returned and `Result` afterwards; the object is not touched. -/
def FPythonSocketUIModule.RunPythonCommand (env : PythonEnv) (Command : String)
    (Result : String) : Bool × String :=
  match env.PythonPlugin with
  | some ExecPythonCommandEx =>
    if (ExecPythonCommandEx Command).1 then
      (true, (ExecPythonCommandEx Command).2)
    else
      (false, Result)
  | none => (false, Result)

/-- The Python text that `StartSocketServer` builds in `PythonCommand`. -/
def FPythonSocketUIModule.StartCommand (PluginContentPath : String) : String :=
  "import unreal\n"
  ++ "import sys\n"
  ++ "from importlib import reload\n"
  ++ "import importlib.util\n"
  ++ "import os\n"
  ++ "\n"
  ++ "# Get the Content/Python path from plugin\n"
  ++ "plugin_content_path = r\""
  ++ PluginContentPath
  ++ "\"\n"
  ++ "python_path = os.path.join(plugin_content_path, \"Python\")\n"
  ++ "sys.path.append(python_path)\n"
  ++ "\n"
  ++ "try:\n"
  ++ "    import unreal_socket_server\n"
  ++ "    reload(unreal_socket_server)\n"
  ++ "    print(\"Python socket server started successfully\")\n"
  ++ "    success = True\n"
  ++ "except Exception as e:\n"
  ++ "    print(f\"Error starting Python socket server: \x7bstr(e)\x7d\")\n"
  ++ "    success = False\n"
  ++ "\n"
  ++ "success"

/-- The Python text `PyCmd` of `StopSocketServer`. -/
def FPythonSocketUIModule.StopCommand : String :=
  "import sys\n"
  ++ "import unreal\n"
  ++ "success = False\n"
  ++ "try:\n"
  ++ "    if 'unreal_socket_server' in sys.modules:\n"
  ++ "        unreal_socket_server = sys.modules['unreal_socket_server']\n"
  ++ "        unreal_socket_server.stop_server()\n"
  ++ "        sys.modules.pop('unreal_socket_server', None)\n"
  ++ "        print('Python socket server module removed')\n"
  ++ "        print('Python socket server stopped')\n"
  ++ "        success = True\n"
  ++ "    else:\n"
  ++ "        print('Error: unreal_socket_server module not found')\n"
  ++ "    import threading\n"
  ++ "    print('Running threads: ' + str([t.name for t in threading.enumerate()]))\n"
  ++ "except Exception as e:\n"
  ++ "    print('Error stopping socket server: ' + str(e))\n"
  ++ "print(success)\n"

/-- The refresh of the toolbar at the end of `StartSocketServer` and `StopSocketServer`. -/
def RefreshPythonToolbar (env : PythonEnv) : List PythonSocketEvent :=
  if env.ToolMenus then [PythonSocketEvent.RefreshAllWidgets] else []

/-- The classification of the command result in `StartSocketServer`, for a command that
executed: the new values of `bIsSocketServerRunning` and of the local `bSuccess`, and
the line logged, branch by branch. -/
def FPythonSocketUIModule.ClassifyStart (env : PythonEnv) (m : FPythonSocketUIModule)
    (Result : String) : Bool × Bool × LogLine :=
  if env.Contains Result "Socket server listening" ||
      env.Contains Result "Socket server started" ||
      env.Contains Result "Python socket server started successfully" ||
      !env.Contains Result "Error" then
    (true, true, ⟨.Display, "Python socket server started successfully"⟩)
  else if env.Contains Result "True" then
    (true, true, ⟨.Display, "Python socket server started successfully (detected via True)"⟩)
  else if Result = "" then
    (true, true, ⟨.Display, "Python socket server potentially started (empty result)"⟩)
  else
    (m.bIsSocketServerRunning, false,
      ⟨.Error, "Failed to start Python socket server: " ++ Result⟩)

/-- The member function `void FPythonSocketUIModule::StartSocketServer()`. -/
def FPythonSocketUIModule.StartSocketServer (env : PythonEnv) (m : FPythonSocketUIModule) :
    PythonSocketOutcome :=
  if m.bIsSocketServerRunning then
    { self := m
      events := [PythonSocketEvent.Log
        ⟨.Warning, "Socket server is already running, ignoring start request"⟩] }
  else
    match env.PythonPlugin with
    | none =>
      { self := m
        events :=
          [PythonSocketEvent.Log ⟨.Display, "Starting Python socket server"⟩,
           PythonSocketEvent.Log ⟨.Error, "Python plugin not available"⟩,
           PythonSocketEvent.MessageDialog
             "Python plugin is not available. Make sure Python Script Plugin is enabled."
             "Socket Server Error"] }
    | some ExecPythonCommandEx =>
      let executed := ExecPythonCommandEx
        (FPythonSocketUIModule.StartCommand env.PluginContentPath)
      let classified : Bool × Bool × List PythonSocketEvent :=
        if executed.1 then
          let Result := executed.2
          let branch := FPythonSocketUIModule.ClassifyStart env m Result
          (branch.1, branch.2.1,
            [PythonSocketEvent.Log ⟨.Display, "Python command result: " ++ Result⟩,
             PythonSocketEvent.Log branch.2.2])
        else
          (m.bIsSocketServerRunning, false,
            [PythonSocketEvent.Log ⟨.Error, "Failed to execute Python command"⟩])
      { self := { m with bIsSocketServerRunning := classified.1 }
        events :=
          PythonSocketEvent.Log ⟨.Display, "Starting Python socket server"⟩
          :: classified.2.2
          ++ RefreshPythonToolbar env
          ++ (if !classified.2.1 then
                [PythonSocketEvent.MessageDialog
                  "Failed to start Python socket server. Check Output Log for details."
                  "Socket Server Error"]
              else []) }

/-- The local `bServerStopped` of `StopSocketServer`: the classification of the command
result, branch by branch. -/
def FPythonSocketUIModule.ClassifyStop (env : PythonEnv) (Result : String) : Bool :=
  if env.Contains Result "Python socket server module removed" ||
      env.Contains Result "Python socket server stopped" then
    true
  else if env.Contains Result "True" then
    true
  else if Result = "" || Result.length == 0 then
    true
  else if !env.Contains Result "Error" then
    true
  else
    false

/-- The member function `void FPythonSocketUIModule::StopSocketServer()`. -/
def FPythonSocketUIModule.StopSocketServer (env : PythonEnv) (m : FPythonSocketUIModule) :
    PythonSocketOutcome :=
  if !m.bIsSocketServerRunning then
    { self := { m with bIsSocketServerRunning := false }
      events :=
        [PythonSocketEvent.Log ⟨.Warning, "Stopping socket server..."⟩,
         PythonSocketEvent.Log ⟨.Warning, "Socket server not running."⟩] }
  else
    let ran := FPythonSocketUIModule.RunPythonCommand env FPythonSocketUIModule.StopCommand ""
    let bCommandSuccessful := ran.1
    let Result := ran.2
    let bServerStopped := FPythonSocketUIModule.ClassifyStop env Result
    let verdict : FPythonSocketUIModule × PythonSocketEvent :=
      if bCommandSuccessful && bServerStopped then
        ({ m with bIsSocketServerRunning := false },
          PythonSocketEvent.Log ⟨.Display, "Python socket server stopped successfully."⟩)
      else
        ({ m with bIsSocketServerRunning := false },
          PythonSocketEvent.Log
            ⟨.Error, "Failed to stop Python socket server: " ++ Result⟩)
    { self := verdict.1
      events :=
        [PythonSocketEvent.Log ⟨.Warning, "Stopping socket server..."⟩,
         PythonSocketEvent.Log ⟨.Display, "Stop server command result: " ++ Result⟩,
         verdict.2]
        ++ RefreshPythonToolbar env }

/-- A substring test for the examples: `sub` occurs in `text` as a contiguous run of
characters, compared without regard to letter case, and the empty `sub` never does. -/
def containsIgnoringCase (text sub : String) : Bool :=
  sub ≠ "" && decide ((sub.toList.map Char.toLower) <:+: (text.toList.map Char.toLower))

/-- An engine whose Python plugin executes every command and leaves `result` in
`CommandResult`. -/
def envExecuting (result : String) : PythonEnv :=
  { PythonPlugin := some (fun _ => (true, result))
    Contains := containsIgnoringCase
    ToolMenus := true
    PluginContentPath := "C:/Plugins/UnrealGenAISupport/Content" }

/-- An engine whose Python plugin fails to execute every command. -/
def envFailing : PythonEnv :=
  { PythonPlugin := some (fun _ => (false, "Error: not executed"))
    Contains := containsIgnoringCase
    ToolMenus := true
    PluginContentPath := "C:/Plugins/UnrealGenAISupport/Content" }

/-- An engine without the Python plugin. -/
def envNoPlugin : PythonEnv :=
  { PythonPlugin := none
    Contains := containsIgnoringCase
    ToolMenus := false
    PluginContentPath := "" }

/-- A Python socket module whose server is marked as running. -/
def pythonModuleRunning : FPythonSocketUIModule :=
  { ControlPanelWindow := some ⟨2⟩, bIsSocketServerRunning := true }

/-- A Python socket module whose server is marked as not running. -/
def pythonModuleStopped : FPythonSocketUIModule :=
  { ControlPanelWindow := none, bIsSocketServerRunning := false }

/-! ## Basic facts about the member functions -/

theorem FTCPServer.Start_ret (s : FTCPServer) : s.Start.ret = true := by
  unfold FTCPServer.Start
  split <;> rfl

theorem FTCPServer.Start_self_bIsRunning (s : FTCPServer) :
    s.Start.self.bIsRunning = true := by
  unfold FTCPServer.Start
  split
  · assumption
  · rfl

theorem FTCPServer.Start_self_Config (s : FTCPServer) :
    s.Start.self.Config = s.Config := by
  unfold FTCPServer.Start
  split <;> rfl

theorem FTCPServer.Start_self_of_running (s : FTCPServer) (h : s.bIsRunning = true) :
    s.Start.self = s := by
  unfold FTCPServer.Start
  simp [h]

/-- On a server that is not running, `Start()` returns true, sets the running flag, keeps
the config and logs its two `Display` lines: the source has no failing branch. -/
theorem FTCPServer.Start_of_not_running (s : FTCPServer) (h : s.bIsRunning = false) :
    s.Start.ret = true ∧
    s.Start.self = { Config := s.Config, bIsRunning := true } ∧
    s.Start.log =
      [⟨ELogVerbosity.Display, "Starting TCP Server on port " ++ toString s.Config.Port.toInt⟩,
       ⟨ELogVerbosity.Display, "TCP Server started successfully"⟩] := by
  unfold FTCPServer.Start
  simp [h]

theorem FTCPServer.Stop_self_bIsRunning (s : FTCPServer) :
    s.Stop.self.bIsRunning = false := by
  unfold FTCPServer.Stop
  cases h : s.bIsRunning <;> simp [h]

theorem FTCPServer.Stop_self_Config (s : FTCPServer) :
    s.Stop.self.Config = s.Config := by
  unfold FTCPServer.Stop
  split <;> rfl

theorem FTCPServer.Stop_self_of_not_running (s : FTCPServer) (h : s.bIsRunning = false) :
    s.Stop.self = s := by
  unfold FTCPServer.Stop
  simp [h]

theorem FTCPServer.call_Config (s : FTCPServer) (c : Call) :
    (s.call c).2.Config = s.Config := by
  cases c
  · exact s.Start_self_Config
  · exact s.Stop_self_Config
  · rfl
  · rfl

theorem FTCPServer.run_Config (s : FTCPServer) (cs : List Call) :
    (s.run cs).Config = s.Config := by
  induction cs generalizing s with
  | nil => rfl
  | cons c cs ih =>
    show ((s.call c).2.run cs).Config = s.Config
    rw [ih, s.call_Config]

theorem FTCPServer.run_concat (s : FTCPServer) (cs : List Call) (c : Call) :
    s.run (cs ++ [c]) = ((s.run cs).call c).2 := by
  induction cs generalizing s with
  | nil => rfl
  | cons d ds ih => exact ih (s.call d).2

theorem FTCPServer.call_bIsRunning_of_ne_Stop (s : FTCPServer) (c : Call)
    (hs : s.bIsRunning = true) (hc : c ≠ Call.Stop) :
    (s.call c).2.bIsRunning = true := by
  cases c
  · exact s.Start_self_bIsRunning
  · exact absurd rfl hc
  · exact hs
  · exact hs

theorem FTCPServer.call_ret_of_running (s : FTCPServer) (c : Call)
    (hs : s.bIsRunning = true) :
    (s.call c).1 ≠ Ret.bool false := by
  cases c
  · simp [FTCPServer.call, s.Start_ret]
  · simp [FTCPServer.call]
  · simp [FTCPServer.call, FTCPServer.IsRunning, hs]
  · simp [FTCPServer.call]

theorem FTCPServer.run_bIsRunning_of_no_Stop (s : FTCPServer) (cs : List Call)
    (hs : s.bIsRunning = true) (hcs : Call.Stop ∉ cs) :
    (s.run cs).bIsRunning = true := by
  induction cs generalizing s with
  | nil => exact hs
  | cons c cs ih =>
    have hc : c ≠ Call.Stop := fun h => hcs (h ▸ List.mem_cons_self _ _)
    have hrest : Call.Stop ∉ cs := fun h => hcs (List.mem_cons_of_mem _ h)
    exact ih (s.call c).2 (s.call_bIsRunning_of_ne_Stop c hs hc) hrest

theorem FTCPServer.trace_of_no_Stop (s : FTCPServer) (cs : List Call)
    (hs : s.bIsRunning = true) (hcs : Call.Stop ∉ cs) :
    Ret.bool false ∉ s.trace cs := by
  induction cs generalizing s with
  | nil => simp [FTCPServer.trace]
  | cons c cs ih =>
    have hc : c ≠ Call.Stop := fun h => hcs (h ▸ List.mem_cons_self _ _)
    have hrest : Call.Stop ∉ cs := fun h => hcs (List.mem_cons_of_mem _ h)
    intro hmem
    rcases List.mem_cons.mp hmem with h | h
    · exact s.call_ret_of_running c hs h.symm
    · exact ih (s.call c).2 (s.call_bIsRunning_of_ne_Stop c hs hc) hrest h

/-! ## Lifecycle contract -/

/-- C1: whenever `Start()` returns true, `IsRunning()` is true right afterwards and stays
true along every further sequence of `IsRunning()`/`GetConfig()`/`Start()` calls that
contains no `Stop()`, and none of those calls returns false; and in every state
`IsRunning()` is false after `Stop()` has returned. -/
theorem FTCPServer.running_from_Start_until_Stop (s : FTCPServer) :
    (s.Start.ret = true →
      s.Start.self.IsRunning = true ∧
      ∀ cs : List Call, Call.Stop ∉ cs →
        (s.Start.self.run cs).IsRunning = true ∧ Ret.bool false ∉ s.Start.self.trace cs) ∧
    s.Stop.self.IsRunning = false := by
  refine ⟨fun _ => ⟨s.Start_self_bIsRunning, fun cs hcs => ⟨?_, ?_⟩⟩, s.Stop_self_bIsRunning⟩
  · exact s.Start.self.run_bIsRunning_of_no_Stop cs s.Start_self_bIsRunning hcs
  · exact s.Start.self.trace_of_no_Stop cs s.Start_self_bIsRunning hcs

/-- Instance of C1 on a server built from `configCustom`, with three further calls. -/
theorem FTCPServer.running_from_Start_until_Stop_witness :
    (FTCPServer.new configCustom).Start.ret = true ∧
    Call.Stop ∉ [Call.IsRunning, Call.Start, Call.GetConfig, Call.IsRunning] ∧
    (FTCPServer.new configCustom).Start.self.IsRunning = true ∧
    ((FTCPServer.new configCustom).Start.self.run
      [Call.IsRunning, Call.Start, Call.GetConfig, Call.IsRunning]).IsRunning = true ∧
    (FTCPServer.new configCustom).Start.self.trace
      [Call.IsRunning, Call.Start, Call.GetConfig, Call.IsRunning]
      = [Ret.bool true, Ret.bool true, Ret.config configCustom, Ret.bool true] ∧
    (FTCPServer.new configCustom).Start.self.Stop.self.IsRunning = false :=
  have h := FTCPServer.running_from_Start_until_Stop (FTCPServer.new configCustom)
  ⟨by decide, by decide, (h.1 (by decide)).1,
    ((h.1 (by decide)).2 _ (by decide)).1, by decide,
    (FTCPServer.running_from_Start_until_Stop (FTCPServer.new configCustom).Start.self).2⟩

/-- C2, as the code behaves: on a server that is already running, `Start()` returns true,
logs the one warning "TCP Server is already running", and leaves the object (running
flag and config) as it was. -/
theorem FTCPServer.Start_when_running (s : FTCPServer) (h : s.IsRunning = true) :
    s.Start.ret = true ∧
    s.Start.self = s ∧
    s.Start.log = [⟨ELogVerbosity.Warning, "TCP Server is already running"⟩] := by
  have hb : s.bIsRunning = true := h
  unfold FTCPServer.Start
  simp [hb]

/-- Instance of the amended C2 on `runningServer`. -/
theorem FTCPServer.Start_when_running_witness :
    runningServer.IsRunning = true ∧
    runningServer.Start.ret = true ∧
    runningServer.Start.self = runningServer ∧
    runningServer.Start.log = [⟨ELogVerbosity.Warning, "TCP Server is already running"⟩] :=
  ⟨by decide, FTCPServer.Start_when_running runningServer (by decide)⟩

/-- C2 fails as stated: the server obtained by one successful `Start()` is running, and a
second `Start()` on it does not return false. -/
theorem FTCPServer.second_Start_returns_true :
    (FTCPServer.new configCustom).Start.ret = true ∧
    (FTCPServer.new configCustom).Start.self.IsRunning = true ∧
    ¬ ((FTCPServer.new configCustom).Start.self.Start.ret = false) := by
  decide

/-- C3: on a server that is not running, `Stop()` leaves the whole object unchanged and
does nothing else (it logs nothing and returns normally, `Stop` being a total function);
and in every state a second `Stop()` changes nothing after the first. -/
theorem FTCPServer.Stop_idempotent (s : FTCPServer) :
    (s.IsRunning = false → s.Stop.self = s ∧ s.Stop.log = []) ∧
    s.Stop.self.Stop.self = s.Stop.self := by
  refine ⟨fun h => ?_, s.Stop.self.Stop_self_of_not_running s.Stop_self_bIsRunning⟩
  have hb : s.bIsRunning = false := h
  unfold FTCPServer.Stop
  simp [hb]

/-- Instance of C3 on a fresh server and on `runningServer`. -/
theorem FTCPServer.Stop_idempotent_witness :
    (FTCPServer.new configCustom).IsRunning = false ∧
    (FTCPServer.new configCustom).Stop.self = FTCPServer.new configCustom ∧
    (FTCPServer.new configCustom).Stop.log = [] ∧
    runningServer.Stop.self.Stop.self = runningServer.Stop.self :=
  ⟨by decide,
    ((FTCPServer.Stop_idempotent (FTCPServer.new configCustom)).1 (by decide)).1,
    ((FTCPServer.Stop_idempotent (FTCPServer.new configCustom)).1 (by decide)).2,
    (FTCPServer.Stop_idempotent runningServer).2⟩

/-- C4: after any finite sequence of `Start()`/`Stop()` calls on a freshly constructed
server, `IsRunning()` is true exactly when the sequence is non-empty and ends with
`Start()`; a fresh server is not running; and an `IsRunning()` call hands back the
object unchanged. -/
theorem FTCPServer.IsRunning_iff_last_call_Start (c : FTCPServerConfig) (cs : List Call)
    (hcs : ∀ x ∈ cs, x = Call.Start ∨ x = Call.Stop) :
    (((FTCPServer.new c).run cs).IsRunning = true ↔
      cs ≠ [] ∧ cs.getLast? = some Call.Start) ∧
    (FTCPServer.new c).IsRunning = false ∧
    ∀ s : FTCPServer, (s.call Call.IsRunning).2 = s := by
  refine ⟨?_, rfl, fun _ => rfl⟩
  rcases List.eq_nil_or_concat cs with rfl | ⟨init, last, rfl⟩
  · simp [FTCPServer.run, FTCPServer.new, FTCPServer.IsRunning]
  · rw [List.concat_eq_append] at hcs ⊢
    rw [FTCPServer.run_concat]
    have hlast : last = Call.Start ∨ last = Call.Stop := hcs last (by simp)
    rcases hlast with rfl | rfl
    · simp [FTCPServer.call, FTCPServer.IsRunning, FTCPServer.Start_self_bIsRunning]
    · simp [FTCPServer.call, FTCPServer.IsRunning, FTCPServer.Stop_self_bIsRunning]

/-- Instances of C4: one sequence ending with `Start()`, one ending with `Stop()`. -/
theorem FTCPServer.IsRunning_iff_last_call_Start_witness :
    (∀ x ∈ [Call.Start, Call.Stop, Call.Stop, Call.Start], x = Call.Start ∨ x = Call.Stop) ∧
    ((FTCPServer.new configCustom).run
      [Call.Start, Call.Stop, Call.Stop, Call.Start]).IsRunning = true ∧
    [Call.Start, Call.Stop, Call.Stop, Call.Start].getLast? = some Call.Start ∧
    (∀ x ∈ [Call.Start, Call.Start, Call.Stop], x = Call.Start ∨ x = Call.Stop) ∧
    ((FTCPServer.new configCustom).run [Call.Start, Call.Start, Call.Stop]).IsRunning = false ∧
    ((((FTCPServer.new configCustom).run [Call.Start, Call.Start, Call.Stop]).IsRunning = true ↔
      [Call.Start, Call.Start, Call.Stop] ≠ [] ∧
        [Call.Start, Call.Start, Call.Stop].getLast? = some Call.Start) ∧
      (FTCPServer.new configCustom).IsRunning = false ∧
      ∀ s : FTCPServer, (s.call Call.IsRunning).2 = s) :=
  ⟨by decide,
    (FTCPServer.IsRunning_iff_last_call_Start configCustom
      [Call.Start, Call.Stop, Call.Stop, Call.Start] (by decide)).1.mpr ⟨by decide, by decide⟩,
    by decide, by decide, by decide,
    FTCPServer.IsRunning_iff_last_call_Start configCustom
      [Call.Start, Call.Start, Call.Stop] (by decide)⟩

/-! ## Configuration -/

/-- C5: `GetConfig()` returns exactly the configuration given to the constructor, the
default configuration when the constructor got no argument, and still returns it after
every sequence of `Start()`/`Stop()`/`IsRunning()`/`GetConfig()` calls. -/
theorem FTCPServer.GetConfig_immutable (c : FTCPServerConfig) (cs : List Call) :
    (FTCPServer.new c).GetConfig = c ∧
    FTCPServer.newDefault.GetConfig = FTCPServerConfig.Default ∧
    ((FTCPServer.new c).run cs).GetConfig = c ∧
    (FTCPServer.newDefault.run cs).GetConfig = FTCPServerConfig.Default :=
  ⟨rfl, rfl, (FTCPServer.new c).run_Config cs, FTCPServer.newDefault.run_Config cs⟩

/-- C6: a default-constructed `FTCPServerConfig` has port 8080 and
`MaxConnections` 10, and so has the configuration of a server constructed without an argument. -/
theorem FTCPServerConfig.Default_values :
    FTCPServerConfig.Default.Port.toInt = 8080 ∧
    FTCPServerConfig.Default.MaxConnections.toInt = 10 ∧
    FTCPServer.newDefault.GetConfig.Port.toInt = 8080 ∧
    FTCPServer.newDefault.GetConfig.MaxConnections.toInt = 10 :=
  ⟨rfl, rfl, rfl, rfl⟩

/-- C7, as the code behaves: the constructor stores `MaxConnections` unvalidated and no
call changes it, so after any sequence of calls `GetConfig().MaxConnections ≥ 1` holds
exactly when the configuration given to the constructor had `MaxConnections ≥ 1`. -/
theorem FTCPServer.MaxConnections_pos_iff (c : FTCPServerConfig) (cs : List Call) :
    1 ≤ ((FTCPServer.new c).run cs).GetConfig.MaxConnections.toInt ↔
      1 ≤ c.MaxConnections.toInt := by
  have h : ((FTCPServer.new c).run cs).GetConfig = c := (FTCPServer.new c).run_Config cs
  rw [h]

/-- C7 fails as stated: a server constructed with `MaxConnections = 0` reports
`MaxConnections = 0`, before and after `Start()`/`Stop()` calls. -/
theorem FTCPServer.MaxConnections_zero_accepted :
    ¬ (1 ≤ (FTCPServer.new configNoConnections).GetConfig.MaxConnections.toInt) ∧
    ¬ (1 ≤ ((FTCPServer.new configNoConnections).run
        [Call.Start, Call.Stop, Call.Start]).GetConfig.MaxConnections.toInt) := by
  decide

/-- C8, as the code behaves: the port is a 32-bit signed integer that the constructor
stores unvalidated: `GetConfig().Port` is the port of the configuration given to the
constructor and lies between -2147483648 and 2147483647. -/
theorem FTCPServer.Port_is_int32 (c : FTCPServerConfig) :
    (FTCPServer.new c).GetConfig.Port = c.Port ∧
    -2147483648 ≤ (FTCPServer.new c).GetConfig.Port.toInt ∧
    (FTCPServer.new c).GetConfig.Port.toInt ≤ 2147483647 :=
  ⟨rfl, c.Port.property.1, c.Port.property.2⟩

/-- C8 fails as stated: a server constructed with `Port = 70000` reports port 70000,
which is above 65535. -/
theorem FTCPServer.Port_above_uint16 :
    (FTCPServer.new configPort70000).GetConfig.Port.toInt = 70000 ∧
    ¬ (0 ≤ (FTCPServer.new configPort70000).GetConfig.Port.toInt ∧
        (FTCPServer.new configPort70000).GetConfig.Port.toInt ≤ 65535) := by
  decide

/-! ## Framing codec: round trip and reassembly -/

theorem Framing.EncodeLength_length (n : Nat) : (Framing.EncodeLength n).length = 4 := rfl

theorem Framing.DecodeLength_EncodeLength (n : Nat) (h : n < 4294967296) :
    Framing.DecodeLength (Framing.EncodeLength n) = n := by
  simp only [Framing.DecodeLength, Framing.EncodeLength, List.foldl_cons, List.foldl_nil]
  omega

theorem Framing.Encode_length (payload : List Byte) :
    (Framing.Encode payload).length = 4 + payload.length := by
  simp [Framing.Encode, Framing.EncodeLength_length]

/-- The length field at the front of a buffer that starts with an encoded message. -/
theorem Framing.take_Encode_append (payload rest : List Byte) :
    (Framing.Encode payload ++ rest).take Framing.LengthFieldWidth
      = Framing.EncodeLength payload.length := by
  simp [Framing.Encode, Framing.LengthFieldWidth, Framing.EncodeLength]

/-- A complete encoded message at the front of the buffer is decoded, whatever follows. -/
theorem Framing.TryDecode_message_then_rest (payload rest : List Byte)
    (h : payload.length < 4294967296) :
    Framing.TryDecode (Framing.Encode payload ++ rest)
      = some (payload, (Framing.Encode payload).length) := by
  unfold Framing.TryDecode
  rw [Framing.take_Encode_append, Framing.DecodeLength_EncodeLength _ h]
  have hlen : (Framing.Encode payload ++ rest).length = 4 + payload.length + rest.length := by
    simp [Framing.Encode_length]
  have hdrop : (Framing.Encode payload ++ rest).drop 4 = payload ++ rest := by
    simp [Framing.Encode, Framing.EncodeLength]
  simp only [hlen, Framing.LengthFieldWidth, Framing.Encode_length]
  rw [if_neg (by omega), if_neg (by omega), hdrop]
  simp

/-- A buffer holding only an incomplete prefix of an encoded message: its length field,
once complete, is the one of the message. -/
theorem Framing.take_of_prefix (payload buffer rest : List Byte)
    (hsplit : buffer ++ rest = Framing.Encode payload)
    (hlen : Framing.LengthFieldWidth ≤ buffer.length) :
    buffer.take Framing.LengthFieldWidth = Framing.EncodeLength payload.length := by
  have h1 : (buffer ++ rest).take Framing.LengthFieldWidth
      = buffer.take Framing.LengthFieldWidth := List.take_append_of_le_length hlen
  rw [← h1, hsplit]
  have h2 := Framing.take_Encode_append payload []
  rwa [List.append_nil] at h2

theorem Framing.TryDecode_incomplete (payload buffer rest : List Byte)
    (h : payload.length < 4294967296)
    (hsplit : buffer ++ rest = Framing.Encode payload) (hrest : rest ≠ []) :
    Framing.TryDecode buffer = none := by
  have hsum : buffer.length + rest.length = 4 + payload.length := by
    rw [← List.length_append, hsplit, Framing.Encode_length]
  have hpos : 0 < rest.length := List.length_pos.mpr hrest
  unfold Framing.TryDecode
  by_cases hb : buffer.length < Framing.LengthFieldWidth
  · rw [if_pos hb]
  · rw [if_neg hb, Framing.take_of_prefix payload buffer rest hsplit (Nat.le_of_not_lt hb),
      Framing.DecodeLength_EncodeLength _ h]
    simp only [Framing.LengthFieldWidth] at hb ⊢
    rw [if_pos (by omega)]

theorem Framing.DecodeLoopFuel_nil (lim : Framing.Limits) (fuel : Nat) :
    Framing.DecodeLoopFuel lim fuel [] = { Messages := [], Rest := [], Error := none } := by
  cases fuel with
  | zero => rfl
  | succ n => simp [Framing.DecodeLoopFuel, Framing.TryDecode, Framing.LengthFieldWidth]

/-- The decode loop on an incomplete prefix decodes nothing and consumes nothing. -/
theorem Framing.DecodeLoop_incomplete (lim : Framing.Limits) (payload buffer rest : List Byte)
    (h : payload.length ≤ lim.MaxMessageSize)
    (hsplit : buffer ++ rest = Framing.Encode payload) (hrest : rest ≠ []) :
    Framing.DecodeLoop lim buffer = { Messages := [], Rest := buffer, Error := none } := by
  have h32 : payload.length < 4294967296 := Nat.lt_of_le_of_lt h lim.fits
  unfold Framing.DecodeLoop
  cases hfuel : buffer.length with
  | zero => rfl
  | succ n =>
    unfold Framing.DecodeLoopFuel
    have hguard : ¬ (Framing.LengthFieldWidth ≤ buffer.length ∧
        lim.MaxMessageSize < Framing.DecodeLength (buffer.take Framing.LengthFieldWidth)) := by
      rintro ⟨hlen, hbig⟩
      rw [Framing.take_of_prefix payload buffer rest hsplit hlen,
        Framing.DecodeLength_EncodeLength _ h32] at hbig
      omega
    rw [if_neg hguard, Framing.TryDecode_incomplete payload buffer rest h32 hsplit hrest]

/-- The decode loop on exactly one encoded message decodes it and empties the buffer. -/
theorem Framing.DecodeLoop_Encode (lim : Framing.Limits) (payload : List Byte)
    (h : payload.length ≤ lim.MaxMessageSize) :
    Framing.DecodeLoop lim (Framing.Encode payload)
      = { Messages := [payload], Rest := [], Error := none } := by
  have h32 : payload.length < 4294967296 := Nat.lt_of_le_of_lt h lim.fits
  have hdec := Framing.TryDecode_message_then_rest payload [] h32
  rw [List.append_nil] at hdec
  unfold Framing.DecodeLoop
  rw [Framing.Encode_length, Nat.add_comm 4, ]
  unfold Framing.DecodeLoopFuel
  have hguard : ¬ (Framing.LengthFieldWidth ≤ (Framing.Encode payload).length ∧
      lim.MaxMessageSize
        < Framing.DecodeLength ((Framing.Encode payload).take Framing.LengthFieldWidth)) := by
    rintro ⟨_, hbig⟩
    have h2 := Framing.take_Encode_append payload []
    rw [List.append_nil] at h2
    rw [h2, Framing.DecodeLength_EncodeLength _ h32] at hbig
    omega
  rw [if_neg hguard, hdec]
  simp [Framing.DecodeLoopFuel_nil]

theorem Framing.Receiver.Feed_nil (lim : Framing.Limits) (r : Framing.Receiver)
    (hbuf : r.Buffer = []) : Framing.Receiver.Feed lim r [] = r := by
  unfold Framing.Receiver.Feed
  cases hc : r.Closed with
  | some e => rfl
  | none =>
    cases r with
    | mk b d c =>
      simp only at hbuf hc
      subst hbuf hc
      simp [Framing.DecodeLoop, Framing.DecodeLoopFuel_nil]

theorem Framing.Receiver.FeedAll_empty_chunks (lim : Framing.Limits) (r : Framing.Receiver)
    (hbuf : r.Buffer = []) (chunks : List (List Byte)) (h : chunks.flatten = []) :
    r.FeedAll lim chunks = r := by
  induction chunks with
  | nil => rfl
  | cons c cs ih =>
    rw [List.flatten_cons, List.append_eq_nil] at h
    obtain ⟨hc, hcs⟩ := h
    subst hc
    show (Framing.Receiver.Feed lim r []).FeedAll lim cs = r
    rw [Framing.Receiver.Feed_nil lim r hbuf]
    exact ih hcs

/-- While the bytes received so far are an incomplete prefix of the encoded message,
nothing is decoded and every byte stays buffered. -/
theorem Framing.Receiver.FeedAll_incomplete (lim : Framing.Limits) (payload : List Byte)
    (h : payload.length ≤ lim.MaxMessageSize) (chunks : List (List Byte)) :
    ∀ acc rest : List Byte, acc ++ chunks.flatten ++ rest = Framing.Encode payload → rest ≠ [] →
      Framing.Receiver.FeedAll lim { Buffer := acc, Decoded := [], Closed := none } chunks
        = { Buffer := acc ++ chunks.flatten, Decoded := [], Closed := none } := by
  induction chunks with
  | nil => intro acc rest _ _; simp [Framing.Receiver.FeedAll]
  | cons c cs ih =>
    intro acc rest hsplit hrest
    have hsplit2 : (acc ++ c) ++ cs.flatten ++ rest = Framing.Encode payload := by
      rw [← hsplit]; simp
    have hne : cs.flatten ++ rest ≠ [] := by simp [hrest]
    have hloop := Framing.DecodeLoop_incomplete lim payload (acc ++ c) (cs.flatten ++ rest) h
      (by rw [← hsplit]; simp) hne
    show (Framing.Receiver.Feed lim _ c).FeedAll lim cs = _
    have hfeed : Framing.Receiver.Feed lim { Buffer := acc, Decoded := [], Closed := none } c
        = { Buffer := acc ++ c, Decoded := [], Closed := none } := by
      simp [Framing.Receiver.Feed, hloop]
    rw [hfeed, ih (acc ++ c) rest hsplit2 hrest]
    simp

/-- Once the chunks received add up to the whole encoded message, exactly that message
has been decoded and the buffer is empty. -/
theorem Framing.Receiver.FeedAll_complete (lim : Framing.Limits) (payload : List Byte)
    (h : payload.length ≤ lim.MaxMessageSize) (chunks : List (List Byte)) :
    ∀ acc : List Byte, acc ++ chunks.flatten = Framing.Encode payload →
      acc.length < (Framing.Encode payload).length →
      Framing.Receiver.FeedAll lim { Buffer := acc, Decoded := [], Closed := none } chunks
        = { Buffer := [], Decoded := [payload], Closed := none } := by
  induction chunks with
  | nil =>
    intro acc hsplit hlt
    simp at hsplit
    rw [hsplit] at hlt
    exact absurd hlt (Nat.lt_irrefl _)
  | cons c cs ih =>
    intro acc hsplit hlt
    have hsplit2 : (acc ++ c) ++ cs.flatten = Framing.Encode payload := by
      rw [← hsplit]; simp
    show (Framing.Receiver.Feed lim _ c).FeedAll lim cs = _
    by_cases hrest : cs.flatten = []
    · have hwhole : acc ++ c = Framing.Encode payload := by
        rw [← hsplit2, hrest, List.append_nil]
      have hfeed : Framing.Receiver.Feed lim { Buffer := acc, Decoded := [], Closed := none } c
          = { Buffer := [], Decoded := [payload], Closed := none } := by
        simp [Framing.Receiver.Feed, hwhole, Framing.DecodeLoop_Encode lim payload h]
      rw [hfeed]
      exact Framing.Receiver.FeedAll_empty_chunks lim _ rfl cs hrest
    · have hloop := Framing.DecodeLoop_incomplete lim payload (acc ++ c) cs.flatten h hsplit2 hrest
      have hfeed : Framing.Receiver.Feed lim { Buffer := acc, Decoded := [], Closed := none } c
          = { Buffer := acc ++ c, Decoded := [], Closed := none } := by
        simp [Framing.Receiver.Feed, hloop]
      rw [hfeed]
      apply ih (acc ++ c) hsplit2
      have hl : (acc ++ c).length + cs.flatten.length = (Framing.Encode payload).length := by
        rw [← List.length_append, hsplit2]
      have hpos : 0 < cs.flatten.length := List.length_pos.mpr hrest
      omega

/-- C11: framing round trip.  For every payload whose length is at most the configured
maximum message size (the empty payload included), `TryDecode(Encode(payload))`
returns the payload together with the length of `Encode(payload)`. -/
theorem Framing.TryDecode_Encode (lim : Framing.Limits) (payload : List Byte)
    (h : payload.length ≤ lim.MaxMessageSize) :
    Framing.TryDecode (Framing.Encode payload)
      = some (payload, (Framing.Encode payload).length) := by
  have h32 : payload.length < 4294967296 := Nat.lt_of_le_of_lt h lim.fits
  have hdec := Framing.TryDecode_message_then_rest payload [] h32
  rwa [List.append_nil] at hdec

/-- Instances of C11: the payload `1, 2, 3` and the empty payload, with a bound of 1024. -/
theorem Framing.TryDecode_Encode_witness :
    payload123.length ≤ limits1024.MaxMessageSize ∧
    Framing.TryDecode (Framing.Encode payload123) = some (payload123, 7) ∧
    Framing.TryDecode (Framing.Encode []) = some ([], 4) :=
  ⟨by decide, Framing.TryDecode_Encode limits1024 payload123 (by decide),
    Framing.TryDecode_Encode limits1024 [] (by decide)⟩

/-- C12, with the bound on the payload: framing reassembly.  For every payload whose
length is at most the configured maximum message size and every
split of `Encode(payload)` into contiguous chunks, feeding the chunks one at a time to
the accumulating decode loop ends with exactly one decoded message, equal to the
payload, and an empty buffer; after any initial part of the chunks that leaves the
message incomplete nothing is decoded and all bytes received are still buffered; and on
every buffer that holds only an incomplete prefix `TryDecode` returns nothing and the
decode loop consumes no byte. -/
theorem Framing.reassembly (lim : Framing.Limits) (payload : List Byte)
    (chunks : List (List Byte))
    (h : payload.length ≤ lim.MaxMessageSize)
    (hsplit : chunks.flatten = Framing.Encode payload) :
    Framing.Receiver.empty.FeedAll lim chunks
      = { Buffer := [], Decoded := [payload], Closed := none } ∧
    (∀ first later : List (List Byte), first ++ later = chunks → later.flatten ≠ [] →
      Framing.Receiver.empty.FeedAll lim first
        = { Buffer := first.flatten, Decoded := [], Closed := none }) ∧
    (∀ buffer rest : List Byte, buffer ++ rest = Framing.Encode payload → rest ≠ [] →
      Framing.TryDecode buffer = none ∧
      Framing.DecodeLoop lim buffer = { Messages := [], Rest := buffer, Error := none }) := by
  have h32 : payload.length < 4294967296 := Nat.lt_of_le_of_lt h lim.fits
  refine ⟨?_, ?_, ?_⟩
  · apply Framing.Receiver.FeedAll_complete lim payload h chunks []
    · simpa using hsplit
    · rw [Framing.Encode_length]; simp
  · intro first later hcat hlater
    have hfl : [] ++ first.flatten ++ later.flatten = Framing.Encode payload := by
      rw [← hsplit, ← hcat]; simp
    have := Framing.Receiver.FeedAll_incomplete lim payload h first [] later.flatten hfl hlater
    simpa using this
  · intro buffer rest hb hrest
    exact ⟨Framing.TryDecode_incomplete payload buffer rest h32 hb hrest,
      Framing.DecodeLoop_incomplete lim payload buffer rest h hb hrest⟩

/-- Instance of the amended C12: the encoding of `1, 2, 3` arriving as
`0 0 | 0 3 1 | (nothing) | 2 3`. -/
theorem Framing.reassembly_witness :
    payload123.length ≤ limits1024.MaxMessageSize ∧
    [[0, 0], [0, 3, 1], [], [2, 3]].flatten = Framing.Encode payload123 ∧
    Framing.Receiver.empty.FeedAll limits1024 [[0, 0], [0, 3, 1], [], [2, 3]]
      = { Buffer := [], Decoded := [payload123], Closed := none } ∧
    Framing.Receiver.empty.FeedAll limits1024 [[0, 0], [0, 3, 1]]
      = { Buffer := [0, 0, 0, 3, 1], Decoded := [], Closed := none } ∧
    Framing.TryDecode [0, 0, 0, 3, 1] = none :=
  have h := Framing.reassembly limits1024 payload123 [[0, 0], [0, 3, 1], [], [2, 3]]
    (by decide) (by decide)
  ⟨by decide, by decide, h.1,
    by simpa using h.2.1 [[0, 0], [0, 3, 1]] [[], [2, 3]] (by decide) (by decide),
    (h.2.2 [0, 0, 0, 3, 1] [2, 3] (by decide) (by decide)).1⟩

/-- C12 fails as stated: with a maximum message size of 2 the 3-byte payload `1, 2, 3`,
arriving as `0 0 | 0 3 1 | 2 3`, is never decoded: as soon as its length field is
complete the connection is closed with `MessageTooLarge`. -/
theorem Framing.reassembly_above_limit :
    [[0, 0], [0, 3, 1], [2, 3]].flatten = Framing.Encode payload123 ∧
    Framing.Receiver.empty.FeedAll limits2 [[0, 0], [0, 3, 1], [2, 3]]
      = { Buffer := [0, 0, 0, 3, 1], Decoded := [],
          Closed := some ErrorKind.MessageTooLarge } ∧
    ¬ ((Framing.Receiver.empty.FeedAll limits2 [[0, 0], [0, 3, 1], [2, 3]]).Decoded
        = [payload123]) := by
  decide

/-- A decoded message consumes at least its length field, and only from a buffer that
holds one. -/
theorem Framing.TryDecode_consumed (buffer payload : List Byte) (consumed : Nat)
    (h : Framing.TryDecode buffer = some (payload, consumed)) :
    4 ≤ consumed ∧ 4 ≤ buffer.length := by
  unfold Framing.TryDecode at h
  simp only [Framing.LengthFieldWidth] at h
  split at h
  · exact absurd h (by simp)
  · split at h
    · exact absurd h (by simp)
    · simp only [Option.some.injEq, Prod.mk.injEq] at h
      omega

/-- Enough fuel gives the result: with at least `buffer.length` rounds allowed, the decode
loop does not depend on the number of rounds allowed. -/
theorem Framing.DecodeLoopFuel_enough (lim : Framing.Limits) (fuel : Nat) :
    ∀ (other : Nat) (buffer : List Byte), buffer.length ≤ fuel → buffer.length ≤ other →
      Framing.DecodeLoopFuel lim fuel buffer = Framing.DecodeLoopFuel lim other buffer := by
  induction fuel with
  | zero =>
    intro other buffer h0 _
    have hnil : buffer = [] := List.eq_nil_of_length_eq_zero (Nat.le_zero.mp h0)
    subst hnil
    rw [Framing.DecodeLoopFuel_nil, Framing.DecodeLoopFuel_nil]
  | succ n ih =>
    intro other buffer h1 h2
    cases other with
    | zero =>
      have hnil : buffer = [] := List.eq_nil_of_length_eq_zero (Nat.le_zero.mp h2)
      subst hnil
      rw [Framing.DecodeLoopFuel_nil, Framing.DecodeLoopFuel_nil]
    | succ m =>
      unfold Framing.DecodeLoopFuel
      split
      · rfl
      · cases hdec : Framing.TryDecode buffer with
        | none => rfl
        | some pc =>
          obtain ⟨payload, consumed⟩ := pc
          have hc := Framing.TryDecode_consumed buffer payload consumed hdec
          have hlen : (buffer.drop consumed).length = buffer.length - consumed :=
            List.length_drop _ _
          simp only
          rw [ih m (buffer.drop consumed) (by omega) (by omega)]

/-- The decode loop stops only when `TryDecode` returns nothing or the connection is closed
for an oversized message: the rounds allowed never run out first. -/
theorem Framing.DecodeLoopFuel_done (lim : Framing.Limits) (fuel : Nat) :
    ∀ buffer : List Byte, buffer.length ≤ fuel →
      (Framing.DecodeLoopFuel lim fuel buffer).Error = none →
      Framing.TryDecode (Framing.DecodeLoopFuel lim fuel buffer).Rest = none := by
  induction fuel with
  | zero =>
    intro buffer h0 _
    have hnil : buffer = [] := List.eq_nil_of_length_eq_zero (Nat.le_zero.mp h0)
    subst hnil
    rfl
  | succ n ih =>
    intro buffer h1
    unfold Framing.DecodeLoopFuel
    split
    · intro herr
      exact absurd herr (by simp)
    · cases hdec : Framing.TryDecode buffer with
      | none => intro _; exact hdec
      | some pc =>
        obtain ⟨payload, consumed⟩ := pc
        have hc := Framing.TryDecode_consumed buffer payload consumed hdec
        have hlen : (buffer.drop consumed).length = buffer.length - consumed :=
          List.length_drop _ _
        simp only
        exact ih (buffer.drop consumed) (by omega)

theorem Framing.DecodeLoop_done (lim : Framing.Limits) (buffer : List Byte)
    (h : (Framing.DecodeLoop lim buffer).Error = none) :
    Framing.TryDecode (Framing.DecodeLoop lim buffer).Rest = none :=
  Framing.DecodeLoopFuel_done lim buffer.length buffer (Nat.le_refl _) h

theorem Framing.DecodeLoopFuel_succ (lim : Framing.Limits) (fuel : Nat) (buffer : List Byte) :
    Framing.DecodeLoopFuel lim (fuel + 1) buffer =
      if Framing.LengthFieldWidth ≤ buffer.length ∧
          lim.MaxMessageSize < Framing.DecodeLength (buffer.take Framing.LengthFieldWidth) then
        { Messages := [], Rest := buffer, Error := some ErrorKind.MessageTooLarge }
      else
        match Framing.TryDecode buffer with
        | none => { Messages := [], Rest := buffer, Error := none }
        | some (payload, consumed) =>
          { Framing.DecodeLoopFuel lim fuel (buffer.drop consumed) with
            Messages := payload :: (Framing.DecodeLoopFuel lim fuel (buffer.drop consumed)).Messages } :=
  rfl

/-- A complete message at the front of the buffer is decoded first, and the loop goes on
with the bytes after it. -/
theorem Framing.DecodeLoop_Encode_append (lim : Framing.Limits) (payload rest : List Byte)
    (h : payload.length ≤ lim.MaxMessageSize) :
    Framing.DecodeLoop lim (Framing.Encode payload ++ rest)
      = { Framing.DecodeLoop lim rest with
          Messages := payload :: (Framing.DecodeLoop lim rest).Messages } := by
  have h32 : payload.length < 4294967296 := Nat.lt_of_le_of_lt h lim.fits
  have hdec := Framing.TryDecode_message_then_rest payload rest h32
  have hlen : (Framing.Encode payload ++ rest).length = (3 + payload.length + rest.length) + 1 := by
    simp [Framing.Encode_length]; omega
  unfold Framing.DecodeLoop
  rw [hlen, Framing.DecodeLoopFuel_succ]
  have hguard : ¬ (Framing.LengthFieldWidth ≤ (Framing.Encode payload ++ rest).length ∧
      lim.MaxMessageSize < Framing.DecodeLength
        ((Framing.Encode payload ++ rest).take Framing.LengthFieldWidth)) := by
    rintro ⟨_, hbig⟩
    rw [Framing.take_Encode_append, Framing.DecodeLength_EncodeLength _ h32] at hbig
    omega
  rw [if_neg hguard, hdec]
  have hdrop : (Framing.Encode payload ++ rest).drop (Framing.Encode payload).length = rest :=
    List.drop_left _ _
  simp only [hdrop]
  rw [Framing.DecodeLoopFuel_enough lim (3 + payload.length + rest.length) rest.length rest
    (by omega) (Nat.le_refl _)]

/-! ## Dispatcher, registry and admission -/

theorem Framing.Encode_ne_nil (payload : List Byte) : Framing.Encode payload ≠ [] := by
  simp [Framing.Encode, Framing.EncodeLength]

/-- A reading connection with an empty buffer that receives exactly one encoded request
writes the encoded response and is reading again with an empty buffer. -/
theorem Connection.OnRead_one_request (format : PayloadFormat) (lim : Framing.Limits)
    (registry : HandlerRegistry) (conn : Connection) (request : List Byte)
    (hstate : conn.State = ConnectionState.Reading) (hbuf : conn.Buffer = [])
    (hlen : request.length ≤ lim.MaxMessageSize) :
    Connection.OnRead format lim registry conn (Framing.Encode request)
      = { State := ConnectionState.Reading
          Buffer := []
          Written := conn.Written
            ++ Framing.Encode (format.WriteResponse (Dispatch format registry request)) } := by
  unfold Connection.OnRead
  rw [if_neg (by rw [hstate]; decide), if_neg (Framing.Encode_ne_nil request), hbuf,
    List.nil_append, Framing.DecodeLoop_Encode lim request hlen]
  simp

/-- C13: a request whose command name is not in the handler registry is answered with an
`UnknownCommand` error response, and the connection it arrived on is neither closed nor
disturbed: it is reading again with an empty buffer, having written just that
response, and a following request for a registered command is answered with what its
handler returns, whether it arrives in a later read or in the same read. -/
theorem Dispatch_unknown_command (format : PayloadFormat) (lim : Framing.Limits)
    (registry : HandlerRegistry) (conn : Connection) (unknown known : List Byte)
    (handler : Handler)
    (hstate : conn.State = ConnectionState.Reading) (hbuf : conn.Buffer = [])
    (hunknown : unknown.length ≤ lim.MaxMessageSize)
    (hknown : known.length ≤ lim.MaxMessageSize)
    (habsent : registry.Lookup (format.ParseCommand unknown).1 = none)
    (hpresent : registry.Lookup (format.ParseCommand known).1 = some handler) :
    Dispatch format registry unknown = Response.Error ErrorKind.UnknownCommand ∧
    Connection.OnRead format lim registry conn (Framing.Encode unknown)
      = { State := ConnectionState.Reading
          Buffer := []
          Written := conn.Written
            ++ Framing.Encode (format.WriteResponse (Response.Error ErrorKind.UnknownCommand)) } ∧
    Dispatch format registry known
      = Response.OfHandler (handler (format.ParseCommand known).2) ∧
    Connection.OnRead format lim registry
        (Connection.OnRead format lim registry conn (Framing.Encode unknown))
        (Framing.Encode known)
      = { State := ConnectionState.Reading
          Buffer := []
          Written := conn.Written
            ++ Framing.Encode (format.WriteResponse (Response.Error ErrorKind.UnknownCommand))
            ++ Framing.Encode (format.WriteResponse
                (Response.OfHandler (handler (format.ParseCommand known).2))) } ∧
    Connection.OnRead format lim registry conn (Framing.Encode unknown ++ Framing.Encode known)
      = { State := ConnectionState.Reading
          Buffer := []
          Written := conn.Written
            ++ Framing.Encode (format.WriteResponse (Response.Error ErrorKind.UnknownCommand))
            ++ Framing.Encode (format.WriteResponse
                (Response.OfHandler (handler (format.ParseCommand known).2))) } := by
  have hd1 : Dispatch format registry unknown = Response.Error ErrorKind.UnknownCommand := by
    simp [Dispatch, habsent]
  have hd2 : Dispatch format registry known
      = Response.OfHandler (handler (format.ParseCommand known).2) := by
    simp [Dispatch, hpresent]
  have h1 := Connection.OnRead_one_request format lim registry conn unknown hstate hbuf hunknown
  rw [hd1] at h1
  refine ⟨hd1, h1, hd2, ?_, ?_⟩
  · rw [h1, Connection.OnRead_one_request format lim registry _ known rfl rfl hknown, hd2]
  · unfold Connection.OnRead
    rw [if_neg (by rw [hstate]; decide), if_neg (by simp [Framing.Encode_ne_nil]), hbuf,
      List.nil_append, Framing.DecodeLoop_Encode_append lim unknown _ hunknown,
      Framing.DecodeLoop_Encode lim known hknown]
    simp [hd1, hd2]

/-- Instance of C13: "PING" is not registered and "ECHO" is; the request `2, 9` gets the
error response and the request `1, 5, 6` after it is echoed. -/
theorem Dispatch_unknown_command_witness :
    Connection.new.State = ConnectionState.Reading ∧
    Connection.new.Buffer = [] ∧
    (listenerTwo.RegisterHandler "ECHO" echoHandler).2.Handlers.Lookup
      (exampleFormat.ParseCommand [2, 9]).1 = none ∧
    (listenerTwo.RegisterHandler "ECHO" echoHandler).2.Handlers.Lookup
      (exampleFormat.ParseCommand [1, 5, 6]).1 = some echoHandler ∧
    Dispatch exampleFormat (listenerTwo.RegisterHandler "ECHO" echoHandler).2.Handlers [2, 9]
      = Response.Error ErrorKind.UnknownCommand ∧
    Connection.OnRead exampleFormat limits1024
        (listenerTwo.RegisterHandler "ECHO" echoHandler).2.Handlers
        (Connection.OnRead exampleFormat limits1024
          (listenerTwo.RegisterHandler "ECHO" echoHandler).2.Handlers
          Connection.new (Framing.Encode [2, 9]))
        (Framing.Encode [1, 5, 6])
      = { State := ConnectionState.Reading
          Buffer := []
          Written := [0, 0, 0, 1, 1, 0, 0, 0, 3, 0, 5, 6] } :=
  have h := Dispatch_unknown_command exampleFormat limits1024
    (listenerTwo.RegisterHandler "ECHO" echoHandler).2.Handlers Connection.new
    [2, 9] [1, 5, 6] echoHandler rfl rfl (by decide) (by decide) rfl rfl
  ⟨rfl, rfl, rfl, rfl, h.1, h.2.2.2.1⟩

theorem HandlerRegistry.Lookup_filter_ne (registry : HandlerRegistry) (name other : String)
    (h : other ≠ name) :
    HandlerRegistry.Lookup (registry.filter (fun e => e.1 ≠ name)) other
      = HandlerRegistry.Lookup registry other := by
  induction registry with
  | nil => rfl
  | cons e rest ih =>
    obtain ⟨entry, handler⟩ := e
    by_cases he : entry = name
    · subst he
      have hne : ¬ entry = other := fun hh => h hh.symm
      rw [List.filter_cons_of_neg (by simp)]
      simp only [HandlerRegistry.Lookup, hne, if_false]
      exact ih
    · rw [List.filter_cons_of_pos (by simpa using he)]
      simp only [HandlerRegistry.Lookup, ih]

/-- C14: the Listener has a registration point.  `RegisterHandler(name, handler)` rejects
the empty name and leaves the Listener, its registry included, as it was; for every
non-empty name it is accepted, a later lookup of that name returns the given handler
whatever was registered under the name before, every other name is looked up as
before, and nothing but the registry changes. -/
theorem Listener.RegisterHandler_lookup (l : Listener) (name : String) (handler : Handler) :
    (name = "" → l.RegisterHandler name handler = (false, l)) ∧
    (name ≠ "" →
      (l.RegisterHandler name handler).1 = true ∧
      (l.RegisterHandler name handler).2.Handlers.Lookup name = some handler ∧
      (∀ other : String, other ≠ name →
        (l.RegisterHandler name handler).2.Handlers.Lookup other = l.Handlers.Lookup other) ∧
      (l.RegisterHandler name handler).2.Config = l.Config ∧
      (l.RegisterHandler name handler).2.State = l.State ∧
      (l.RegisterHandler name handler).2.Live = l.Live) := by
  constructor
  · intro h
    simp [Listener.RegisterHandler, h]
  · intro h
    refine ⟨?_, ?_, ?_, ?_, ?_, ?_⟩
    · simp [Listener.RegisterHandler, h]
    · simp [Listener.RegisterHandler, h, HandlerRegistry.Lookup]
    · intro other hother
      have hne : ¬ name = other := fun hh => hother hh.symm
      have hf := HandlerRegistry.Lookup_filter_ne l.Handlers name other hother
      simp only [Listener.RegisterHandler, h, if_false, HandlerRegistry.Lookup, hne]
      exact hf
    · simp [Listener.RegisterHandler, h]
    · simp [Listener.RegisterHandler, h]
    · simp [Listener.RegisterHandler, h]

/-- Instances of C14: the empty name is rejected; "ECHO" registered over an older "ECHO"
handler is looked up as the new one, and "PING" stays unregistered. -/
theorem Listener.RegisterHandler_lookup_witness :
    listenerTwo.RegisterHandler "" echoHandler = (false, listenerTwo) ∧
    "ECHO" ≠ "" ∧
    ((listenerTwo.RegisterHandler "ECHO" failingHandler).2.RegisterHandler
      "ECHO" echoHandler).2.Handlers.Lookup "ECHO" = some echoHandler ∧
    "PING" ≠ "ECHO" ∧
    ((listenerTwo.RegisterHandler "ECHO" failingHandler).2.RegisterHandler
      "ECHO" echoHandler).2.Handlers.Lookup "PING"
      = (listenerTwo.RegisterHandler "ECHO" failingHandler).2.Handlers.Lookup "PING" :=
  ⟨(Listener.RegisterHandler_lookup listenerTwo "" echoHandler).1 rfl,
    by decide,
    ((Listener.RegisterHandler_lookup (listenerTwo.RegisterHandler "ECHO" failingHandler).2
      "ECHO" echoHandler).2 (by decide)).2.1,
    by decide,
    ((Listener.RegisterHandler_lookup (listenerTwo.RegisterHandler "ECHO" failingHandler).2
      "ECHO" echoHandler).2 (by decide)).2.2.1 "PING" (by decide)⟩

theorem Listener.Step_Config (l : Listener) (e : ListenerEvent) :
    (l.Step e).Config = l.Config := by
  cases e with
  | Accept socket =>
    simp only [Listener.Step, Listener.OnAccept]
    split <;> rfl
  | ConnectionClosed socket => rfl

theorem Listener.Run_Config (l : Listener) (events : List ListenerEvent) :
    (l.Run events).Config = l.Config := by
  induction events generalizing l with
  | nil => rfl
  | cons e es ih =>
    show ((l.Step e).Run es).Config = l.Config
    rw [ih, l.Step_Config]

/-- With a negative `MaxConnections` the accept loop closes every accepted socket
immediately, whatever the live set holds. -/
theorem Listener.OnAccept_negative_limit (l : Listener) (socket : Nat)
    (h : l.Config.MaxConnections.toInt < 0) :
    l.OnAccept socket = (Admission.ClosedImmediately, l) := by
  unfold Listener.OnAccept
  rw [if_pos (by omega)]

theorem FGenerativeAIEditorModule.StartServer_running (ToolMenus : Bool)
    (m : FGenerativeAIEditorModule) :
    (m.StartServer ToolMenus).self.IsServerRunning = true := by
  unfold FGenerativeAIEditorModule.StartServer
  split
  · assumption
  · simp [FGenerativeAIEditorModule.IsServerRunning, FTCPServer.IsRunning,
      FTCPServer.Start_self_bIsRunning]

theorem FGenerativeAIEditorModule.StopServer_Server (ToolMenus : Bool)
    (m : FGenerativeAIEditorModule) :
    (m.StopServer ToolMenus).self.Server = none := by
  unfold FGenerativeAIEditorModule.StopServer
  cases h : m.Server <;> simp [h]

theorem FGenerativeAIEditorModule.IsServerRunning_of_no_server (m : FGenerativeAIEditorModule)
    (h : m.Server = none) : m.IsServerRunning = false := by
  simp [FGenerativeAIEditorModule.IsServerRunning, h]

/-- C16: postcondition of `StartServer`.  In every module state `IsServerRunning()` is
true after `StartServer()` and the "Failed to start GenerativeAI Server" line is not
logged; a module whose server was already running is left as it was; any other module
holds afterwards the server that the constructor and one `Start()` make from port 8080
and `MaxConnections` 10, which is running, and keeps its window pointer. -/
theorem FGenerativeAIEditorModule.StartServer_post (ToolMenus : Bool)
    (m : FGenerativeAIEditorModule) :
    (m.StartServer ToolMenus).self.IsServerRunning = true ∧
    EditorEvent.Log ⟨ELogVerbosity.Error, "Failed to start GenerativeAI Server"⟩
      ∉ (m.StartServer ToolMenus).events ∧
    (m.IsServerRunning = true → (m.StartServer ToolMenus).self = m) ∧
    (m.IsServerRunning = false →
      (m.StartServer ToolMenus).self.GetServer
        = some { Config := FTCPServerConfig.Default, bIsRunning := true } ∧
      (m.StartServer ToolMenus).self.GetServer
        = some (FTCPServer.new FTCPServerConfig.Default).Start.self ∧
      (∀ server, (m.StartServer ToolMenus).self.GetServer = some server →
        server.GetConfig.Port.toInt = 8080 ∧ server.GetConfig.MaxConnections.toInt = 10) ∧
      (m.StartServer ToolMenus).self.ControlPanelWindow = m.ControlPanelWindow) := by
  refine ⟨m.StartServer_running ToolMenus, ?_, ?_, ?_⟩
  · unfold FGenerativeAIEditorModule.StartServer
    split
    · simp
    · have hdestroy : ∀ old : FTCPServer,
          EditorEvent.Log ⟨ELogVerbosity.Error, "Failed to start GenerativeAI Server"⟩
            ∉ old.Destroy.map EditorEvent.Log := by
        intro old
        unfold FTCPServer.Destroy FTCPServer.Stop
        split <;> simp
      cases hs : m.Server with
      | none =>
        simp [FTCPServer.Start_ret, RefreshToolbar, FTCPServer.Start, FTCPServer.new]
      | some old =>
        have := hdestroy old
        simp [FTCPServer.Start_ret, RefreshToolbar, FTCPServer.Start, FTCPServer.new]
        simpa using this
  · intro h
    unfold FGenerativeAIEditorModule.StartServer
    rw [if_pos h]
  · intro h
    unfold FGenerativeAIEditorModule.StartServer
    rw [if_neg (by rw [h]; decide)]
    refine ⟨rfl, rfl, ?_, rfl⟩
    intro server hserver
    simp only [FGenerativeAIEditorModule.GetServer, Option.some.injEq] at hserver
    subst hserver
    exact ⟨rfl, rfl⟩

/-- Instances of C16: a module whose server is not running gets a fresh running server on
port 8080; a module whose server is running is left alone. -/
theorem FGenerativeAIEditorModule.StartServer_post_witness :
    moduleWithStoppedServer.IsServerRunning = false ∧
    (moduleWithStoppedServer.StartServer true).self
      = { Server := some { Config := FTCPServerConfig.Default, bIsRunning := true }
          ControlPanelWindow := some ⟨1⟩ } ∧
    (moduleWithStoppedServer.StartServer true).self.GetServer
      = some { Config := FTCPServerConfig.Default, bIsRunning := true } ∧
    moduleWithRunningServer.IsServerRunning = true ∧
    (moduleWithRunningServer.StartServer true).self = moduleWithRunningServer :=
  ⟨by decide, by decide,
    ((FGenerativeAIEditorModule.StartServer_post true moduleWithStoppedServer).2.2.2
      (by decide)).1,
    by decide,
    (FGenerativeAIEditorModule.StartServer_post true moduleWithRunningServer).2.2.1
      (by decide)⟩

theorem FGenerativeAIEditorModule.ToggleServer_self (ToolMenus : Bool)
    (m : FGenerativeAIEditorModule) :
    (m.ToggleServer ToolMenus).self
      = if m.IsServerRunning then (m.StopServer ToolMenus).self
        else (m.StartServer ToolMenus).self := by
  unfold FGenerativeAIEditorModule.ToggleServer
  split <;> rfl

theorem FGenerativeAIEditorModule.CloseControlPanel_Server (m : FGenerativeAIEditorModule) :
    m.CloseControlPanel.self.Server = m.Server := by
  unfold FGenerativeAIEditorModule.CloseControlPanel
  split <;> rfl

theorem FGenerativeAIEditorModule.ShutdownModule_Server (ToolMenus : Bool)
    (m : FGenerativeAIEditorModule) :
    (m.ShutdownModule ToolMenus).self.Server = none := by
  unfold FGenerativeAIEditorModule.ShutdownModule
  simp only [FGenerativeAIEditorModule.CloseControlPanel_Server]
  cases h : m.Server with
  | none => exact h
  | some server => exact m.StopServer_Server ToolMenus

theorem FGenerativeAIEditorModule.NoServerOrRunning_of_no_server
    (m : FGenerativeAIEditorModule) (h : m.Server = none) : m.NoServerOrRunning = true := by
  simp [FGenerativeAIEditorModule.NoServerOrRunning, h]

theorem FGenerativeAIEditorModule.StartServer_NoServerOrRunning (ToolMenus : Bool)
    (m : FGenerativeAIEditorModule) (h : m.NoServerOrRunning = true) :
    (m.StartServer ToolMenus).self.NoServerOrRunning = true := by
  unfold FGenerativeAIEditorModule.StartServer
  split
  · exact h
  · rfl

/-- Every call keeps the invariant. -/
theorem FGenerativeAIEditorModule.call_NoServerOrRunning (m : FGenerativeAIEditorModule)
    (c : ModuleCall) (h : m.NoServerOrRunning = true) :
    (m.call c).self.NoServerOrRunning = true := by
  cases c with
  | StartServer ToolMenus => exact m.StartServer_NoServerOrRunning ToolMenus h
  | StopServer ToolMenus =>
    exact FGenerativeAIEditorModule.NoServerOrRunning_of_no_server _
      (m.StopServer_Server ToolMenus)
  | ToggleServer ToolMenus =>
    show (m.ToggleServer ToolMenus).self.NoServerOrRunning = true
    rw [m.ToggleServer_self ToolMenus]
    split
    · exact FGenerativeAIEditorModule.NoServerOrRunning_of_no_server _
        (m.StopServer_Server ToolMenus)
    · exact m.StartServer_NoServerOrRunning ToolMenus h
  | ShutdownModule ToolMenus =>
    exact FGenerativeAIEditorModule.NoServerOrRunning_of_no_server _
      (m.ShutdownModule_Server ToolMenus)

theorem FGenerativeAIEditorModule.run_NoServerOrRunning (m : FGenerativeAIEditorModule)
    (calls : List ModuleCall) (h : m.NoServerOrRunning = true) :
    (m.run calls).NoServerOrRunning = true := by
  induction calls generalizing m with
  | nil => exact h
  | cons c cs ih => exact ih (m.call c).self (m.call_NoServerOrRunning c h)

/-- C17: reachable-state invariant of the editor module.  Starting without a server, after
every finite sequence of `StartServer`/`StopServer`/`ToggleServer`/`ShutdownModule`
calls the module holds no server or a server that is running; so `IsServerRunning()` is
true exactly when `GetServer()` is not null, and a server that is held has port 8080. -/
theorem FGenerativeAIEditorModule.reachable_invariant (window : Option SWindow)
    (calls : List ModuleCall) :
    (((FGenerativeAIEditorModule.withoutServer window).run calls).GetServer = none ∨
      ∃ server, ((FGenerativeAIEditorModule.withoutServer window).run calls).GetServer
        = some server ∧ server.IsRunning = true) ∧
    (((FGenerativeAIEditorModule.withoutServer window).run calls).IsServerRunning = true ↔
      ((FGenerativeAIEditorModule.withoutServer window).run calls).GetServer ≠ none) ∧
    (∀ server, ((FGenerativeAIEditorModule.withoutServer window).run calls).GetServer
        = some server → server.GetConfig.Port.toInt = 8080) := by
  have hinv := (FGenerativeAIEditorModule.withoutServer window).run_NoServerOrRunning calls rfl
  generalize (FGenerativeAIEditorModule.withoutServer window).run calls = m at hinv
  unfold FGenerativeAIEditorModule.NoServerOrRunning at hinv
  unfold FGenerativeAIEditorModule.GetServer FGenerativeAIEditorModule.IsServerRunning
  cases hs : m.Server with
  | none => simp
  | some server =>
    rw [hs] at hinv
    simp only [Bool.and_eq_true, decide_eq_true_eq] at hinv
    simp [hinv.1, hinv.2]

/-- C18: `ToggleServer` negates the running status.  In every module state
`IsServerRunning()` after `ToggleServer()` is the negation of `IsServerRunning()`
before it, and after two `ToggleServer()` calls in a row it is what it was. -/
theorem FGenerativeAIEditorModule.ToggleServer_negates (first second : Bool)
    (m : FGenerativeAIEditorModule) :
    (m.ToggleServer first).self.IsServerRunning = !m.IsServerRunning ∧
    ((m.ToggleServer first).self.ToggleServer second).self.IsServerRunning
      = m.IsServerRunning := by
  have hone : ∀ (ToolMenus : Bool) (x : FGenerativeAIEditorModule),
      (x.ToggleServer ToolMenus).self.IsServerRunning = !x.IsServerRunning := by
    intro ToolMenus x
    rw [x.ToggleServer_self ToolMenus]
    cases hr : x.IsServerRunning with
    | true =>
      simp only [if_true, Bool.not_true]
      exact FGenerativeAIEditorModule.IsServerRunning_of_no_server _
        (x.StopServer_Server ToolMenus)
    | false =>
      simp only [Bool.false_eq_true, if_false, Bool.not_false]
      exact x.StartServer_running ToolMenus
  refine ⟨hone first m, ?_⟩
  rw [hone second, hone first, Bool.not_not]

/-! ## The Python socket module -/

/-- C19: `StopSocketServer` always leaves the socket server marked as not running.  For
every module state and every engine (Python plugin missing, command not executed, or
executed with any result text, and whatever `Contains` finds in it) the module after
`StopSocketServer()` is the module before with `bIsSocketServerRunning` false; so the
final state is the same under any two engines, and the classification of the result
text has no part in it. -/
theorem FPythonSocketUIModule.StopSocketServer_not_running (env : PythonEnv)
    (m : FPythonSocketUIModule) :
    (m.StopSocketServer env).self.bIsSocketServerRunning = false ∧
    (m.StopSocketServer env).self = { m with bIsSocketServerRunning := false } ∧
    (∀ other : PythonEnv, (m.StopSocketServer other).self = (m.StopSocketServer env).self) := by
  have hself : ∀ e : PythonEnv,
      (m.StopSocketServer e).self = { m with bIsSocketServerRunning := false } := by
    intro e
    unfold FPythonSocketUIModule.StopSocketServer
    split
    · rfl
    · simp only
      split <;> rfl
  refine ⟨?_, hself env, fun other => ?_⟩
  · rw [hself env]
  · rw [hself other, hself env]

theorem FPythonSocketUIModule.ClassifyStart_flag (env : PythonEnv) (m : FPythonSocketUIModule)
    (Result : String) (hm : m.bIsSocketServerRunning = false)
    (hempty : env.Contains "" "Error" = false) :
    (FPythonSocketUIModule.ClassifyStart env m Result).1 = true ↔
      (env.Contains Result "Error" = false ∨
        env.Contains Result "Socket server listening" = true ∨
        env.Contains Result "Socket server started" = true ∨
        env.Contains Result "Python socket server started successfully" = true ∨
        env.Contains Result "True" = true) := by
  unfold FPythonSocketUIModule.ClassifyStart
  by_cases h1 : (env.Contains Result "Socket server listening" ||
      env.Contains Result "Socket server started" ||
      env.Contains Result "Python socket server started successfully" ||
      !env.Contains Result "Error") = true
  · rw [if_pos h1]
    simp only [Bool.or_eq_true, Bool.not_eq_true'] at h1
    simp only [true_iff]
    tauto
  · rw [if_neg h1]
    simp only [Bool.or_eq_true, Bool.not_eq_true', not_or, Bool.not_eq_true,
      Bool.not_eq_false] at h1
    obtain ⟨⟨⟨hl, hs⟩, hp⟩, he⟩ := h1
    by_cases h2 : env.Contains Result "True" = true
    · rw [if_pos h2]
      simp only [true_iff]
      tauto
    · rw [if_neg h2]
      have hne : Result ≠ "" := by
        intro hr
        rw [hr, hempty] at he
        exact absurd he (by decide)
      rw [if_neg hne]
      have ht : env.Contains Result "True" = false := by simpa using h2
      simp [hm, hl, hs, hp, he, ht]

/-- The line of the "empty result" branch is never the one logged. -/
theorem FPythonSocketUIModule.ClassifyStart_line (env : PythonEnv) (m : FPythonSocketUIModule)
    (Result : String) (hempty : env.Contains "" "Error" = false) :
    (FPythonSocketUIModule.ClassifyStart env m Result).2.2 ≠
      ⟨ELogVerbosity.Display, "Python socket server potentially started (empty result)"⟩ := by
  unfold FPythonSocketUIModule.ClassifyStart
  split
  · decide
  · rename_i h1
    split
    · decide
    · split
      · rename_i hr
        simp only [Bool.or_eq_true, Bool.not_eq_true', not_or, Bool.not_eq_true,
          Bool.not_eq_false] at h1
        rw [hr, hempty] at h1
        exact absurd h1.2 (by decide)
      · intro hline
        have hv : ELogVerbosity.Error = ELogVerbosity.Display :=
          congrArg LogLine.Verbosity hline
        exact absurd hv (by decide)

theorem FPythonSocketUIModule.result_line_ne (Result : String) :
    "Python command result: " ++ Result
      ≠ "Python socket server potentially started (empty result)" := by
  intro h
  have h2 : ("Python command result: " ++ Result).data.take 8
      = "Python socket server potentially started (empty result)".data.take 8 := by rw [h]
  rw [String.data_append, List.take_append_of_le_length (by decide)] at h2
  exact absurd h2 (by decide)

/-- C20: success classification of `StartSocketServer`.  Starting from a module whose
server is marked as not running, with the Python plugin available (and given that
`Contains` finds no "Error" in the empty text): `bIsSocketServerRunning` is true
afterwards exactly when the command executed and its result text either does not
contain "Error" or contains one of "Socket server listening", "Socket server started",
"Python socket server started successfully", "True"; an empty result of an executed
command counts as success and logs the line of the first branch; the line of the
'empty result' branch is never logged; and when the command does not execute the flag
stays false. -/
theorem FPythonSocketUIModule.StartSocketServer_classification (env : PythonEnv)
    (m : FPythonSocketUIModule) (ExecPythonCommandEx : String → Bool × String)
    (hm : m.bIsSocketServerRunning = false)
    (hplugin : env.PythonPlugin = some ExecPythonCommandEx)
    (hempty : env.Contains "" "Error" = false) :
    ((m.StartSocketServer env).self.bIsSocketServerRunning = true ↔
      (ExecPythonCommandEx (FPythonSocketUIModule.StartCommand env.PluginContentPath)).1 = true ∧
      (env.Contains
          (ExecPythonCommandEx (FPythonSocketUIModule.StartCommand env.PluginContentPath)).2
          "Error" = false ∨
        env.Contains
          (ExecPythonCommandEx (FPythonSocketUIModule.StartCommand env.PluginContentPath)).2
          "Socket server listening" = true ∨
        env.Contains
          (ExecPythonCommandEx (FPythonSocketUIModule.StartCommand env.PluginContentPath)).2
          "Socket server started" = true ∨
        env.Contains
          (ExecPythonCommandEx (FPythonSocketUIModule.StartCommand env.PluginContentPath)).2
          "Python socket server started successfully" = true ∨
        env.Contains
          (ExecPythonCommandEx (FPythonSocketUIModule.StartCommand env.PluginContentPath)).2
          "True" = true)) ∧
    ((ExecPythonCommandEx (FPythonSocketUIModule.StartCommand env.PluginContentPath)).1 = true →
      (ExecPythonCommandEx (FPythonSocketUIModule.StartCommand env.PluginContentPath)).2 = "" →
      (m.StartSocketServer env).self.bIsSocketServerRunning = true ∧
      PythonSocketEvent.Log ⟨ELogVerbosity.Display, "Python socket server started successfully"⟩
        ∈ (m.StartSocketServer env).events) ∧
    PythonSocketEvent.Log
        ⟨ELogVerbosity.Display, "Python socket server potentially started (empty result)"⟩
      ∉ (m.StartSocketServer env).events ∧
    ((ExecPythonCommandEx (FPythonSocketUIModule.StartCommand env.PluginContentPath)).1 = false →
      (m.StartSocketServer env).self.bIsSocketServerRunning = false) := by
  generalize hx : ExecPythonCommandEx (FPythonSocketUIModule.StartCommand env.PluginContentPath)
    = executed
  obtain ⟨ok, Result⟩ := executed
  have hline := FPythonSocketUIModule.ClassifyStart_line env m Result hempty
  have hflag := FPythonSocketUIModule.ClassifyStart_flag env m Result hm hempty
  have hres := FPythonSocketUIModule.result_line_ne Result
  unfold FPythonSocketUIModule.StartSocketServer
  rw [if_neg (by simp [hm])]
  simp only [hplugin, hx]
  cases ok with
  | false =>
    refine ⟨?_, ?_, ?_, ?_⟩
    · simp [hm]
    · intro h; exact absurd h (by decide)
    · simp [RefreshPythonToolbar]
    · intro _; simpa using hm
  | true =>
    refine ⟨?_, ?_, ?_, ?_⟩
    · simpa using hflag
    · intro _ hr
      subst hr
      have hfirst : FPythonSocketUIModule.ClassifyStart env m ""
          = (true, true, ⟨ELogVerbosity.Display, "Python socket server started successfully"⟩) := by
        unfold FPythonSocketUIModule.ClassifyStart
        rw [if_pos (by simp [hempty])]
      simp [hfirst]
    · simp only [if_true, List.cons_append, List.mem_cons, List.mem_append, not_or]
      refine ⟨by simp, ?_, ?_, ?_⟩
      · intro h
        injection h with h
        injection h with _ h
        exact hres h.symm
      · intro h
        injection h with h
        exact hline h.symm
      · refine ⟨⟨by simp, ?_⟩, ?_⟩
        · unfold RefreshPythonToolbar
          cases env.ToolMenus <;> simp
        · split <;> simp
    · intro h; exact absurd h (by decide)

/-- Instances of C20: an executed command with an empty result marks the server as
running; one whose result only reports an error leaves it not running; a command that
does not execute leaves it not running. -/
theorem FPythonSocketUIModule.StartSocketServer_classification_witness :
    pythonModuleStopped.bIsSocketServerRunning = false ∧
    (envExecuting "").PythonPlugin = some (fun _ => (true, "")) ∧
    (envExecuting "").Contains "" "Error" = false ∧
    (pythonModuleStopped.StartSocketServer (envExecuting "")).self.bIsSocketServerRunning
      = true ∧
    ¬ ((pythonModuleStopped.StartSocketServer
        (envExecuting "Error starting Python socket server: boom")).self.bIsSocketServerRunning
      = true) ∧
    (pythonModuleStopped.StartSocketServer envFailing).self.bIsSocketServerRunning = false :=
  ⟨rfl, rfl, by decide,
    ((FPythonSocketUIModule.StartSocketServer_classification (envExecuting "")
      pythonModuleStopped (fun _ => (true, "")) rfl rfl (by decide)).2.1 rfl rfl).1,
    (FPythonSocketUIModule.StartSocketServer_classification
      (envExecuting "Error starting Python socket server: boom")
      pythonModuleStopped (fun _ => (true, "Error starting Python socket server: boom"))
      rfl rfl (by decide)).1.not.mpr (by decide),
    (FPythonSocketUIModule.StartSocketServer_classification envFailing
      pythonModuleStopped (fun _ => (false, "Error: not executed")) rfl rfl (by decide)).2.2.2
      rfl⟩

/-! ## Shutdown of the editor module and `RunPythonCommand` -/

theorem FGenerativeAIEditorModule.CloseControlPanel_window (m : FGenerativeAIEditorModule) :
    m.CloseControlPanel.self.ControlPanelWindow = none := by
  unfold FGenerativeAIEditorModule.CloseControlPanel
  cases h : m.ControlPanelWindow with
  | none => exact h
  | some window => rfl

/-- C21: `ShutdownModule` leaves the module quiescent.  In every module state, and
whatever `UToolMenus::Get()` returns, after `ShutdownModule()` the module holds no
server, so `GetServer()` is null and `IsServerRunning()` is false, and it holds no
control-panel window. -/
theorem FGenerativeAIEditorModule.ShutdownModule_quiescent (ToolMenus : Bool)
    (m : FGenerativeAIEditorModule) :
    (m.ShutdownModule ToolMenus).self.GetServer = none ∧
    (m.ShutdownModule ToolMenus).self.IsServerRunning = false ∧
    (m.ShutdownModule ToolMenus).self.ControlPanelWindow = none ∧
    (m.ShutdownModule ToolMenus).self = { Server := none, ControlPanelWindow := none } := by
  have hserver := m.ShutdownModule_Server ToolMenus
  have hwindow : (m.ShutdownModule ToolMenus).self.ControlPanelWindow = none := by
    unfold FGenerativeAIEditorModule.ShutdownModule
    exact FGenerativeAIEditorModule.CloseControlPanel_window _
  refine ⟨hserver, FGenerativeAIEditorModule.IsServerRunning_of_no_server _ hserver, hwindow, ?_⟩
  cases hm : (m.ShutdownModule ToolMenus).self with
  | mk server window =>
    rw [hm] at hserver hwindow
    simp only at hserver hwindow
    rw [hserver, hwindow]

/-- C22: `RunPythonCommand` returns true exactly when the Python plugin is available and
its `ExecPythonCommandEx` succeeds on the command; when it returns true, `Result` is the
`CommandResult` of that execution; when it returns false, `Result` is as the caller
passed it. -/
theorem FPythonSocketUIModule.RunPythonCommand_result (env : PythonEnv)
    (Command Result : String) :
    ((FPythonSocketUIModule.RunPythonCommand env Command Result).1 = true ↔
      ∃ ExecPythonCommandEx, env.PythonPlugin = some ExecPythonCommandEx ∧
        (ExecPythonCommandEx Command).1 = true) ∧
    ((FPythonSocketUIModule.RunPythonCommand env Command Result).1 = true →
      ∃ ExecPythonCommandEx, env.PythonPlugin = some ExecPythonCommandEx ∧
        (FPythonSocketUIModule.RunPythonCommand env Command Result).2
          = (ExecPythonCommandEx Command).2) ∧
    ((FPythonSocketUIModule.RunPythonCommand env Command Result).1 = false →
      (FPythonSocketUIModule.RunPythonCommand env Command Result).2 = Result) := by
  unfold FPythonSocketUIModule.RunPythonCommand
  cases hp : env.PythonPlugin with
  | none => simp
  | some exec =>
    cases hok : (exec Command).1 with
    | true => simp [hok]
    | false => simp [hok]

/-- Instances of C22: a plugin that executes the command, one that fails to, and no
plugin at all, each called with `Result` holding "before". -/
theorem FPythonSocketUIModule.RunPythonCommand_result_witness :
    FPythonSocketUIModule.RunPythonCommand (envExecuting "done") "print(1)" "before"
      = (true, "done") ∧
    (∃ ExecPythonCommandEx, (envExecuting "done").PythonPlugin = some ExecPythonCommandEx ∧
      (ExecPythonCommandEx "print(1)").1 = true) ∧
    (FPythonSocketUIModule.RunPythonCommand envFailing "print(1)" "before").1 = false ∧
    (FPythonSocketUIModule.RunPythonCommand envFailing "print(1)" "before").2 = "before" ∧
    (FPythonSocketUIModule.RunPythonCommand envNoPlugin "print(1)" "before").1 = false ∧
    (FPythonSocketUIModule.RunPythonCommand envNoPlugin "print(1)" "before").2 = "before" :=
  ⟨rfl,
    (FPythonSocketUIModule.RunPythonCommand_result (envExecuting "done") "print(1)"
      "before").1.mp rfl,
    rfl,
    (FPythonSocketUIModule.RunPythonCommand_result envFailing "print(1)" "before").2.2 rfl,
    rfl,
    (FPythonSocketUIModule.RunPythonCommand_result envNoPlugin "print(1)" "before").2.2 rfl⟩


end GenAI
